import Mathlib

/-!
Verification of the sku_sales_inventory reporting pipeline.

The Python sources (src/utils.py, src/parsers.py, src/schemas.py,
src/settings.py, src/pipelines/inventory.py, src/pipelines/sales.py) are
shallowly embedded below: pandas DataFrames become lists of structures,
Python floats become exact rationals, code that can raise returns Except,
and fallible loaders return Option.  Function and constant names follow
the source where Lean allows it.
-/

/-- Calendar date, models Python datetime.date as a (year, month, day) triple. -/
structure Date where
  y : Nat
  m : Nat
  d : Nat
  deriving DecidableEq, Repr

/-- Gregorian leap-year rule used by datetime.date validity. -/
def isLeapYear (y : Nat) : Bool :=
  (y % 4 == 0 && y % 100 != 0) || y % 400 == 0

/-- Number of days in a month of a given year. -/
def daysInMonth (y m : Nat) : Nat :=
  if m = 2 then (if isLeapYear y then 29 else 28)
  else if m = 4 ∨ m = 6 ∨ m = 9 ∨ m = 11 then 30
  else 31

/-- Validity of a date triple as enforced by datetime.date / date.fromisoformat
(year 1..9999, month 1..12, day within the month). -/
def Date.valid (dt : Date) : Bool :=
  1 ≤ dt.y && dt.y ≤ 9999 && 1 ≤ dt.m && dt.m ≤ 12 &&
    1 ≤ dt.d && dt.d ≤ daysInMonth dt.y dt.m

/-- Strict comparison of dates, models Python date ordering (lexicographic
on year, month, day). -/
def dateLtB (a b : Date) : Bool :=
  a.y < b.y || (a.y == b.y && (a.m < b.m || (a.m == b.m && a.d < b.d)))

/-- Non-strict date comparison. -/
def dateLeB (a b : Date) : Bool := dateLtB a b || a == b

/-- Decimal digits of a number, most significant first; fuel-based so the
kernel can evaluate it. -/
def natDigitsAux : Nat → Nat → List Char
  | _, 0 => []
  | 0, _ => []
  | fuel + 1, n => natDigitsAux fuel (n / 10) ++ [Char.ofNat ('0'.toNat + n % 10)]

/-- Decimal string of a number. -/
def natToStr (n : Nat) : String :=
  if n = 0 then "0" else String.mk (natDigitsAux n n)

/-- Left-pads the decimal representation of a number with zeros to a width. -/
def padNat (w n : Nat) : String :=
  let s := natToStr n
  String.mk (List.replicate (w - s.length) '0') ++ s

/-- Strips leading and trailing whitespace from a character list. -/
def trimChars (cs : List Char) : List Char :=
  ((cs.dropWhile Char.isWhitespace).reverse.dropWhile Char.isWhitespace).reverse

/-- Models Python str.strip() (ASCII whitespace fragment). -/
def pyTrim (s : String) : String := String.mk (trimChars s.toList)

/-- Models str.replace(c, "") for a single-character pattern. -/
def removeChar (c : Char) (s : String) : String :=
  String.mk (s.toList.filter (fun x => x != c))

/-- Models str.replace(a, b) for single-character pattern and replacement. -/
def replaceChar (a b : Char) (s : String) : String :=
  String.mk (s.toList.map (fun x => if x == a then b else x))

/-- Models str.lower(). -/
def pyLower (s : String) : String := String.mk (s.toList.map Char.toLower)

/-- Splits a character list on a separator character (models str.split(sep)
for a one-character separator). -/
def splitOnCharAux (c : Char) : List Char → List Char → List (List Char)
  | [], acc => [acc.reverse]
  | x :: xs, acc =>
      if x == c then acc.reverse :: splitOnCharAux c xs []
      else splitOnCharAux c xs (x :: acc)

/-- Splits a character list on a separator character. -/
def splitOnChar (c : Char) (cs : List Char) : List (List Char) :=
  splitOnCharAux c cs []

/-- Whether pat occurs as a contiguous substring of cs (models the Python
`in` test on strings, for a non-empty pattern). -/
def hasSubstr : List Char → List Char → Bool
  | [], pat => pat.isEmpty
  | c :: rest, pat => pat.isPrefixOf (c :: rest) || hasSubstr rest pat

/-- ISO formatting of a date, models date.isoformat() (YYYY-MM-DD). -/
def Date.iso (dt : Date) : String :=
  padNat 4 dt.y ++ "-" ++ padNat 2 dt.m ++ "-" ++ padNat 2 dt.d

/-- Compact formatting of a date, models strftime("%Y%m%d"). -/
def Date.compact (dt : Date) : String :=
  padNat 4 dt.y ++ padNat 2 dt.m ++ padNat 2 dt.d

/-- Whether every character of the list is a decimal digit. -/
def allDigits (cs : List Char) : Bool := cs.all Char.isDigit

/-- Value of a list of decimal digits. -/
def digitsVal (cs : List Char) : Nat :=
  cs.foldl (fun a c => a * 10 + (c.toNat - '0'.toNat)) 0

/-- Models date.fromisoformat on a YYYY-MM-DD string: returns none (the
raising case) when the shape is wrong or the triple is not a valid
calendar date. -/
def parseIsoDate? (s : String) : Option Date :=
  match s.toList with
  | [y1, y2, y3, y4, h1, m1, m2, h2, d1, d2] =>
    if allDigits [y1, y2, y3, y4] && h1 == '-' && allDigits [m1, m2] &&
        h2 == '-' && allDigits [d1, d2] then
      let dt : Date := ⟨digitsVal [y1, y2, y3, y4], digitsVal [m1, m2], digitsVal [d1, d2]⟩
      if dt.valid then some dt else none
    else none
  | _ => none

/-- A Python cell value as it appears in a loaded DataFrame: an int, a
float (modelled as an exact rational), a string, or a missing value. -/
inductive PyVal where
  | vInt (n : Int)
  | vFloat (q : ℚ)
  | vStr (s : String)
  | vNone
  deriving DecidableEq, Repr

/-- Python exceptions relevant to the embedded code. -/
inductive PyErr where
  | valueError
  | typeError
  | keyError (cols : String)
  | validationError
  deriving DecidableEq, Repr

/-- Models Python float(s) restricted to finite plain decimal literals
(optional sign, digits, optional fractional part) — the forms taken by
cleaned currency strings.  Exponents, inf/nan and digit underscores are
outside the modelled fragment; on it the model agrees with float(). -/
def pyFloatOfString? (s : String) : Option ℚ :=
  let signBody : ℚ × List Char :=
    match s.toList with
    | '+' :: t => (1, t)
    | '-' :: t => (-1, t)
    | t => (1, t)
  match splitOnChar '.' signBody.2 with
  | [ics] =>
      if !ics.isEmpty && allDigits ics then some (signBody.1 * digitsVal ics)
      else none
  | [ics, fcs] =>
      if (!ics.isEmpty || !fcs.isEmpty) && allDigits ics && allDigits fcs then
        some (signBody.1 *
          ((digitsVal ics : ℚ) + (digitsVal fcs : ℚ) / (10 : ℚ) ^ fcs.length))
      else none
  | _ => none

/-- Embeds utils.clean_money: numeric values pass through as floats,
strings lose "$" and "," and surrounding whitespace and are then parsed
(raising ValueError when the cleaned, non-blank string is not numeric),
blank strings and non-(int/float/str) values give 0.0. -/
def cleanMoney : PyVal → Except PyErr ℚ
  | PyVal.vInt n => Except.ok (n : ℚ)
  | PyVal.vFloat q => Except.ok q
  | PyVal.vStr s =>
      let c := pyTrim (removeChar ',' (removeChar '$' s))
      if c.isEmpty then Except.ok 0
      else
        match pyFloatOfString? c with
        | some q => Except.ok q
        | none => Except.error PyErr.valueError
  | PyVal.vNone => Except.ok 0

/-- Master SKU list (settings.SKU_ORDER). -/
def SKU_ORDER : List String :=
  ["1001", "PH1001", "10012P", "PH10012P",
   "2001", "PH2001", "20012P", "PH20012P",
   "3001", "PH3001", "30012P", "PH30012P",
   "4001", "PH4001", "40012P", "PH40012P",
   "5001", "PH5001", "50012P", "PH50012P",
   "6001", "PH6001", "60012P", "PH60012P",
   "8001", "PH8001", "80012P", "PH80012P",
   "9001", "PH9001", "90012P", "PH90012P"]

/-- Fixed channel order for the inventory report (settings.CHANNEL_ORDER). -/
def CHANNEL_ORDER : List String := ["FBA", "AWD", "DTC", "Reserve", "WFS"]

/-- Modelled from the spec: settings.SALES_CHANNEL_ORDER is referenced by
SalesPipeline.transform ("the full list of configured sales channels") but
is absent from src/src/settings.py and from every other repository file.
Per the spec's fixed ordered channel universe and the sales channel set of
the schemas (SalesItem) and pipeline, it is modelled as the seven sales
channels. -/
def SALES_CHANNEL_ORDER : List String :=
  ["Amazon", "TikTok Shop", "TikTok Shopify", "Shopify", "Walmart", "Target", "Others"]

/-- Shopify variant-SKU mapping (settings.SHOPIFY_SKU_MAP), an ordered
association list of external key to internal SKU list. -/
def SHOPIFY_SKU_MAP : List (String × List String) :=
  [("5001", ["5001"]),
   ("5002", ["5001", "5001"]),
   ("5003", ["5001", "5001", "5001"]),
   ("PH5001", ["PH5001"]),
   ("4001", ["4001"]),
   ("3001", ["3001"]),
   ("PH5002", ["PH5001", "PH5001"]),
   ("2001", ["2001"]),
   ("8001", ["8001"]),
   ("1001", ["1001"]),
   ("9001", ["9001"]),
   ("4002", ["4001", "4001"]),
   ("PH5003", ["PH5001", "PH5001", "PH5001"]),
   ("6001", ["6001"]),
   ("4003", ["4001", "4001", "4001"]),
   ("3003", ["3001", "3001", "3001"]),
   ("3002", ["3001", "3001"]),
   ("PH8003", ["PH8001", "PH8001", "PH8001"]),
   ("9003", ["9001", "9001", "9001"]),
   ("PH3003", ["PH3001", "PH3001", "PH3001"]),
   ("8003", ["8001", "8001", "8001"]),
   ("1003", ["1001", "1001", "1001"]),
   ("PH8001", ["PH8001"]),
   ("4001-3001", ["4001", "3001"]),
   ("9002", ["9001", "9001"]),
   ("1002", ["1001", "1001"]),
   ("6003", ["6001", "6001", "6001"]),
   ("PH2001", ["PH2001"]),
   ("PH8002", ["PH8001", "PH8001"]),
   ("PH3001", ["PH3001"]),
   ("8002", ["8001", "8001"]),
   ("PH6001", ["PH6001"]),
   ("PH1002", ["PH1001", "PH1001"]),
   ("PH6002", ["PH6001", "PH6001"]),
   ("6002", ["6001", "6001"]),
   ("PH9001", ["PH9001"]),
   ("PH1001", ["PH1001"]),
   ("PH4001", ["PH4001"]),
   ("PH4002", ["PH4001", "PH4001"]),
   ("PH4003", ["PH4001", "PH4001", "PH4001"]),
   ("2005", ["2001", "2001"]),
   ("2003", ["2001", "2001", "2001"]),
   ("PH2002", ["PH2001", "PH2001"]),
   ("PH2003", ["PH2001", "PH2001", "PH2001"]),
   ("PH9002", ["PH9001", "PH9001"]),
   ("PH9003", ["PH9001", "PH9001", "PH9001"]),
   ("PH3002", ["PH3001", "PH3001"]),
   ("PH1003", ["PH1001", "PH1001", "PH1001"]),
   ("PH6003", ["PH6001", "PH6001", "PH6001"]),
   ("4001-PH8001", ["4001", "PH8001"]),
   ("4001-PH9001", ["4001", "PH9001"]),
   ("4001-2001", ["4001", "2001"]),
   ("5001-2001", ["5001", "2001"]),
   ("5001-PH1001", ["5001", "PH1001"]),
   ("5001-PH6001", ["5001", "PH6001"]),
   ("4001-1001", ["4001", "1001"]),
   ("AlexandrasSpecialBundle", ["3001", "4001", "8001"]),
   ("GetStartedOffer", ["1001"]),
   ("LysineMonolaurinandCleanLysine", ["5001", "4001"]),
   ("DigestiveHealthBundle", ["1001", "4001", "6001"]),
   ("recoverysetbundle", ["2001", "3001", "4001"]),
   ("CousinsSpecialBundle", ["2001", "5001", "6001"]),
   ("ImmuneDefenseBundle", ["2001", "3001", "8001"]),
   ("CreatorEssentialsBundle", ["2001", "5001", "8001"]),
   ("BlasianBundle", ["2001", "5001", "8001"])]

/-- Report filename pieces (settings.py default values). -/
def FBA_FILENAME_PFX : String := "FBA_report_"

/-- Flexport stock-levels filename piece. -/
def FLEXPORT_LEVELS_PFX : String := "Flexport_levels_"

/-- Flexport order-lines filename piece. -/
def FLEXPORT_ORDERS_PFX : String := "Flexport_orders_"

/-- Flexport legacy inbound filename piece. -/
def FLEXPORT_INBOUND_PFX : String := "Flexport_inbound_"

/-- AWD report filename piece. -/
def AWD_FILENAME_PFX : String := "AWD_report_"

/-- WFS inventory filename piece. -/
def WFS_INVENTORY_PFX : String := "Walmart_inventory_"

/-- Walmart sales filename piece. -/
def WALMART_SALES_PFX : String := "Walmart_sales_"

/-- One exploded sales item as produced by parsers._process_bundled_row. -/
structure BItem where
  sku : String
  units : ℚ
  revenue : ℚ
  deriving DecidableEq, Repr

/-- Embeds parsers._process_bundled_row.  The row's key cell is given
already through str() (the sources feed strings), its quantity cell as a
number (the quantity columns are loaded numerically, so float(x or 0) is
the identity, with 0 staying 0), and its revenue cell as a PyVal handed to
clean_money.  Returns the exploded items, the is_bundle flag, and whether
an unmapped-SKU alert was logged. -/
def processBundledRow (mapping : List (String × List String)) (key : String)
    (qty : ℚ) (rev : PyVal) : Except PyErr (List BItem × Bool × Bool) :=
  let sourceKey := pyTrim key
  match mapping.lookup sourceKey with
  | none =>
      if !sourceKey.isEmpty && pyLower sourceKey != "nan" then
        Except.ok ([], false, true)
      else
        Except.ok ([], false, false)
  | some targetSkus =>
      if targetSkus.isEmpty then Except.ok ([], false, false)
      else
        let bundleSize := targetSkus.length
        let isBundle := decide (1 < bundleSize)
        match cleanMoney rev with
        | Except.error e => Except.error e
        | Except.ok originalRev =>
            let revPerItem := originalRev / (bundleSize : ℚ)
            Except.ok
              (targetSkus.map (fun sku => ⟨sku, qty, revPerItem⟩), isBundle, false)

/-- Date-segment extraction for the anchored filename pattern
"pfx YYYY-MM-DD .csv" compiled by utils.find_latest_report. -/
def matchReportName (pfx name : String) : Option String :=
  let pcs := pfx.toList
  let ncs := name.toList
  if pcs.isPrefixOf ncs then
    match ncs.drop pcs.length with
    | [y1, y2, y3, y4, h1, m1, m2, h2, d1, d2, '.', 'c', 's', 'v'] =>
        if allDigits [y1, y2, y3, y4] && h1 == '-' && allDigits [m1, m2] &&
            h2 == '-' && allDigits [d1, d2] then
          some (String.mk [y1, y2, y3, y4, h1, m1, m2, h2, d1, d2])
        else none
    | _ => none
  else none

/-- Candidate report files with parsed dates: names matching the anchored
pattern whose date segment parses as a valid calendar date. -/
def reportCandidates (files : List String) (pfx : String) : List (String × Date) :=
  files.filterMap (fun f =>
    (matchReportName pfx f).bind (fun ds =>
      (parseIsoDate? ds).map (fun dt => (f, dt))))

/-- First entry carrying the maximal date: models the stable descending
sort by date followed by taking the head. -/
def pickFirstMax : List (String × Date) → Option (String × Date)
  | [] => none
  | x :: xs =>
      some (xs.foldl (fun best c => if dateLtB best.2 c.2 then c else best) x)

/-- Embeds utils.find_latest_report.  The directory is given as the list
of the names of its regular files and today models date.today(). -/
def find_latest_report (files : List String) (pfx : String) (today : Date) :
    Option (String × Date) :=
  let todayFile := pfx ++ today.iso ++ ".csv"
  if files.contains todayFile then some (todayFile, today)
  else pickFirstMax (reportCandidates files pfx)

/-- Parameter names accepted by utils.load_csv, whose definition is
load_csv(file_path, skiprows=0) with no further parameters. -/
def loadCsvParams : List String := ["file_path", "skiprows"]

/-- Models Python keyword-argument binding: a call binds only when every
keyword names a declared parameter (load_csv declares no kwargs
catch-all); otherwise the call raises TypeError. -/
def kwargsAccepted (params kwargs : List String) : Bool :=
  kwargs.all (fun k => params.contains k)

/-- Header scan of parse_tiktok_sales_report: the first line containing
"SKU ID" fixes the skip-row count and the delimiter (";" when that line
holds more semicolons than commas, else ","). -/
def tiktokScanAux : Nat → List String → Option (Nat × String)
  | _, [] => none
  | i, line :: rest =>
      if hasSubstr line.toList "SKU ID".toList then
        let semis := line.toList.count ';'
        let commas := line.toList.count ','
        some (i, if commas < semis then ";" else ",")
      else tiktokScanAux (i + 1) rest

/-- Detected header-row index and delimiter for a TikTok sales file, with
the hardcoded fallback skip count of 2 when no marker line exists. -/
def tiktokDetectHeader (lines : List String) : Nat × String :=
  (tiktokScanAux 0 lines).getD (2, ",")

/-- Embeds parse_tiktok_sales_report up to its load step: after the header
scan the parser calls load_csv(path, skiprows=.., sep=..); sep is not a
parameter of load_csv, so the call raises TypeError before any data is
loaded, making the aggregation below that call unreachable. -/
def parseTiktokSales (lines : List String) : Except PyErr (List BItem) :=
  let header := tiktokDetectHeader lines
  if kwargsAccepted loadCsvParams ["skiprows", "sep"] then
    Except.ok (if header.1 = 0 then [] else [])
  else Except.error PyErr.typeError

/-- First-occurrence deduplication with an accumulator of already seen
keys; models pandas Series.unique(). -/
def pdUniqueAux {α : Type} [BEq α] (seen : List α) : List α → List α
  | [] => []
  | a :: l =>
      if seen.contains a then pdUniqueAux seen l
      else a :: pdUniqueAux (seen ++ [a]) l

/-- First-occurrence deduplication, models pandas Series.unique(). -/
def pdUnique {α : Type} [BEq α] (l : List α) : List α := pdUniqueAux [] l

/-- Strict character-code comparison of strings (models Python string
ordering on the code points involved here). -/
def charsLtB : List Char → List Char → Bool
  | [], [] => false
  | [], _ :: _ => true
  | _ :: _, [] => false
  | a :: as, b :: bs =>
      if a.toNat < b.toNat then true
      else if b.toNat < a.toNat then false
      else charsLtB as bs

/-- Strict string comparison. -/
def strLtB (a b : String) : Bool := charsLtB a.toList b.toList

/-- Non-strict lexicographic comparison of string pairs, the group-key
order produced by a pandas groupby over two string columns. -/
def pairLeB (x y : String × String) : Bool :=
  strLtB x.1 y.1 || (x.1 == y.1 && (strLtB x.2 y.2 || x.2 == y.2))

/-- Insertion into a list sorted by pairLeB. -/
def insertPairKey (x : String × String) : List (String × String) → List (String × String)
  | [] => [x]
  | y :: ys => if pairLeB y x then y :: insertPairKey x ys else x :: y :: ys

/-- Insertion sort by pairLeB (groupby sorts its group keys). -/
def sortPairKeys (l : List (String × String)) : List (String × String) :=
  l.foldr insertPairKey []

/-- One row of the loaded storefront (Shopify) export with the columns the
code touches.  Net sales and Quantity ordered are numeric in the export
(the code compares them against 0 directly); Net sales is handed to
clean_money as a float cell. -/
structure ShopifyRow where
  salesChannel : String
  variantSku : String
  qtyOrdered : ℚ
  netSales : ℚ
  deriving Repr

/-- Bucket assignment for a raw Sales channel label
(parse_shopify_sales_report). -/
def shopifyBucket (cName : String) : String :=
  if cName == "TikTok" then "TikTok Shopify"
  else if cName == "Marketplace Connect" then "Target"
  else if cName == "Online Store" || cName == "Shop" || cName == "Loop Subscriptions"
    then "Shopify"
  else "Others"

/-- Initial per-bucket bundle statistics (Units, Revenue). -/
def initShopifyStats : List (String × ℚ × ℚ) :=
  [("Shopify", 0, 0), ("TikTok Shopify", 0, 0), ("Target", 0, 0), ("Others", 0, 0)]

/-- Adds units and revenue to one bucket of the statistics table. -/
def bumpStats (st : List (String × ℚ × ℚ)) (bucket : String) (u r : ℚ) :
    List (String × ℚ × ℚ) :=
  st.map (fun e => if e.1 == bucket then (e.1, e.2.1 + u, e.2.2 + r) else e)

/-- Row filters of parse_shopify_sales_report: drop Draft Orders, keep
rows with positive net sales or positive ordered quantity. -/
def shopifyFilter (rows : List ShopifyRow) : List ShopifyRow :=
  (rows.filter (fun r => r.salesChannel != "Draft Orders")).filter
    (fun r => decide (0 < r.netSales) || decide (0 < r.qtyOrdered))

/-- The row loop of parse_shopify_sales_report: explodes each row through
the bundle engine, tags the bucket, and accumulates per-bucket bundle
statistics in row order. -/
def shopifyExpandAux (acc : List (BItem × String)) (st : List (String × ℚ × ℚ)) :
    List ShopifyRow → Except PyErr (List (BItem × String) × List (String × ℚ × ℚ))
  | [] => Except.ok (acc, st)
  | row :: rest =>
      let bucket := shopifyBucket row.salesChannel
      match processBundledRow SHOPIFY_SKU_MAP row.variantSku row.qtyOrdered
          (PyVal.vFloat row.netSales) with
      | Except.error e => Except.error e
      | Except.ok (newRows, isBundle, _alerted) =>
          let acc2 := acc ++ newRows.map (fun r => (r, bucket))
          let st2 :=
            if isBundle then bumpStats st bucket row.qtyOrdered row.netSales else st
          shopifyExpandAux acc2 st2 rest

/-- One grouped output row of the storefront parser. -/
structure GroupedSale where
  sku : String
  channel : String
  units : ℚ
  revenue : ℚ
  deriving DecidableEq, Repr

/-- Groups exploded items by (SKU, Channel), summing Units and Revenue,
with group keys in sorted order as pandas groupby produces them. -/
def groupShopify (items : List (BItem × String)) : List GroupedSale :=
  (sortPairKeys (pdUnique (items.map (fun it => (it.1.sku, it.2))))).map
    (fun k =>
      let rel := items.filter (fun it => it.1.sku == k.1 && it.2 == k.2)
      ⟨k.1, k.2, (rel.map (fun it => it.1.units)).sum,
        (rel.map (fun it => it.1.revenue)).sum⟩)

/-- Embeds parse_shopify_sales_report: returns the grouped normalized rows
(none when no row expanded) together with the bundle statistics table. -/
def parseShopifySales (rows : List ShopifyRow) :
    Except PyErr (Option (List GroupedSale) × List (String × ℚ × ℚ)) :=
  match shopifyExpandAux [] initShopifyStats (shopifyFilter rows) with
  | Except.error e => Except.error e
  | Except.ok (allExpanded, stats) =>
      if allExpanded.isEmpty then Except.ok (none, stats)
      else Except.ok (some (groupShopify allExpanded), stats)

/-- One row of the Flexport stock-levels file with the columns the code
sums (parse_flexport_reports part A). -/
structure LevelsRow where
  msku : String
  dtcQty : PyVal
  rsQty : PyVal
  wipQty : PyVal
  deriving Repr

/-- Models pd.to_numeric(cell, errors="coerce").fillna(0) on one cell. -/
def toNumeric0 (v : PyVal) : ℚ :=
  match v with
  | PyVal.vInt n => (n : ℚ)
  | PyVal.vFloat q => q
  | PyVal.vStr s => (pyFloatOfString? (pyTrim s)).getD 0
  | PyVal.vNone => 0

/-- Stock-level rows restricted to the master SKU list
(levels_df[levels_df["MSKU"].isin(settings.SKU_ORDER)]). -/
def flexportFiltered (rows : List LevelsRow) : List LevelsRow :=
  rows.filter (fun r => SKU_ORDER.contains r.msku)

/-- Group keys of the levels aggregation (groupby("MSKU")), in first
appearance order; only membership matters downstream. -/
def flexportAggSkus (rows : List LevelsRow) : List String :=
  pdUnique ((flexportFiltered rows).map (fun r => r.msku))

/-- Summed RS Total Quantity for one grouped SKU. -/
def flexportSumRS (rows : List LevelsRow) (sku : String) : ℚ :=
  (((flexportFiltered rows).filter (fun r => r.msku == sku)).map
    (fun r => toNumeric0 r.rsQty)).sum

/-- Summed Ops WIP Quantity for one grouped SKU. -/
def flexportSumWIP (rows : List LevelsRow) (sku : String) : ℚ :=
  (((flexportFiltered rows).filter (fun r => r.msku == sku)).map
    (fun r => toNumeric0 r.wipQty)).sum

/-- Summed DTC Total Quantity for one grouped SKU. -/
def flexportSumDTC (rows : List LevelsRow) (sku : String) : ℚ :=
  (((flexportFiltered rows).filter (fun r => r.msku == sku)).map
    (fun r => toNumeric0 r.dtcQty)).sum

/-- reserve_inventory column of levels_agg:
(RS Total Quantity - Ops WIP Quantity).clip(lower=0). -/
def flexportReserveAgg (rows : List LevelsRow) : List (String × ℚ) :=
  (flexportAggSkus rows).map (fun sku =>
    (sku, max (flexportSumRS rows sku - flexportSumWIP rows sku) 0))

/-- Reserve-channel inventory per master SKU: the SKU_ORDER template
left-merged with reserve_inventory and NaNs filled with 0 (part A
composed with the Reserve frame of part D of parse_flexport_reports). -/
def flexportReserveFinal (rows : List LevelsRow) : List (String × ℚ) :=
  SKU_ORDER.map (fun sku => (sku, ((flexportReserveAgg rows).lookup sku).getD 0))

/-- Field descriptor of a pydantic schema: field name, alias, and whether
the field carries a ge=0 bound. -/
structure FieldSpec where
  fname : String
  falias : Option String
  ge0 : Bool
  deriving Repr

/-- Fields of schemas.InventoryItem in declaration order. -/
def InventoryItemFields : List FieldSpec :=
  [⟨"id", none, false⟩,
   ⟨"sku_channel_id", none, false⟩,
   ⟨"report_date", some "Date", false⟩,
   ⟨"sku", some "SKU", false⟩,
   ⟨"channel", some "Channel", false⟩,
   ⟨"units_sold", some "Units Sold", true⟩,
   ⟨"inventory", some "Inventory", true⟩,
   ⟨"inbound", some "Inbound", true⟩]

/-- Fields of schemas.SalesRecord in declaration order; no field of this
schema carries a bound constraint. -/
def SalesRecordFields : List FieldSpec :=
  [⟨"id", none, false⟩,
   ⟨"sku_channel_id", none, false⟩,
   ⟨"report_date", some "Date", false⟩,
   ⟨"sku", some "SKU", false⟩,
   ⟨"channel", some "Channel", false⟩,
   ⟨"units", some "Units", false⟩,
   ⟨"revenue", some "Revenue", false⟩]

/-- Column list selected by InventoryPipeline.transform:
field.alias or name, over the schema fields. -/
def invFinalColumns : List String :=
  InventoryItemFields.map (fun f => f.falias.getD f.fname)

/-- Whether a schema field carries the ge=0 bound. -/
def fieldGe0 (fs : List FieldSpec) (n : String) : Bool :=
  ((fs.filter (fun f => f.fname == n)).head?.map (fun f => f.ge0)).getD false

/-- Pydantic validation of an int field given a float cell: lax int
coercion accepts only integral floats, then the ge bound (when declared)
is checked. -/
def pydanticIntField (ge0 : Bool) (q : ℚ) : Except PyErr Int :=
  if q.den = 1 then
    if ge0 && decide (q.num < 0) then Except.error PyErr.validationError
    else Except.ok q.num
  else Except.error PyErr.validationError

/-- Metric validation of one inventory record: the three constrained int
fields of schemas.InventoryItem (its string and date fields are supplied
well-typed by the pipeline). -/
def inventoryItemValidate (unitsSold inventory inbound : ℚ) :
    Except PyErr (Int × Int × Int) :=
  match pydanticIntField (fieldGe0 InventoryItemFields "units_sold") unitsSold with
  | Except.error e => Except.error e
  | Except.ok u =>
    match pydanticIntField (fieldGe0 InventoryItemFields "inventory") inventory with
    | Except.error e => Except.error e
    | Except.ok i =>
      match pydanticIntField (fieldGe0 InventoryItemFields "inbound") inbound with
      | Except.error e => Except.error e
      | Except.ok b => Except.ok (u, i, b)

/-- Metric validation of one sales record (schemas.SalesRecord): units
arrives as an int and revenue as a float; any declared ge bounds are
checked, and the schema declares none. -/
def salesRecordValidate (units : Int) (revenue : ℚ) : Except PyErr (Int × ℚ) :=
  if fieldGe0 SalesRecordFields "units" && decide (units < 0) then
    Except.error PyErr.validationError
  else if fieldGe0 SalesRecordFields "revenue" && decide (revenue < 0) then
    Except.error PyErr.validationError
  else Except.ok (units, revenue)

/-- One row of the concatenated inventory extraction output (combined_df):
channel, sku, the Date column assigned in extract, and the metrics. -/
structure InvRow where
  channel : String
  sku : String
  rdate : Option Date
  units_sold : ℚ
  inventory : ℚ
  inbound : ℚ
  deriving Repr

/-- Channel-to-date lookup of the inventory transform
(groupby("channel")["Date"].first() with date.today() as default). -/
def invChannelDate (combined : List InvRow) (today : Date) (ch : String) :
    Option Date :=
  match combined.find? (fun r => r.channel == ch) with
  | some r => r.rdate
  | none => some today

/-- Zero-fill template of InventoryPipeline.transform: every processed
channel crossed with every master SKU at that channel's date. -/
def invTemplate (combined : List InvRow) (today : Date) :
    List (String × String × Option Date) :=
  (pdUnique (combined.map (fun r => r.channel))).flatMap (fun ch =>
    SKU_ORDER.map (fun sku => (ch, sku, invChannelDate combined today ch)))

/-- Left merge of the template with combined_df on [channel, sku, Date],
followed by fillna(0) on the metric columns. -/
def invMerged (combined : List InvRow) (today : Date) : List InvRow :=
  (invTemplate combined today).flatMap (fun t =>
    match combined.filter (fun r =>
        r.channel == t.1 && r.sku == t.2.1 && r.rdate == t.2.2) with
    | [] => [⟨t.1, t.2.1, t.2.2, 0, 0, 0⟩]
    | ms => ms.map (fun r =>
        ⟨t.1, t.2.1, t.2.2, r.units_sold, r.inventory, r.inbound⟩))

/-- Validated inventory output record. -/
structure InvRecordOut where
  rid : String
  skuChannelId : String
  rdate : Option Date
  sku : String
  channel : String
  units_sold : Int
  inventory : Int
  inbound : Int
  deriving DecidableEq, Repr

/-- Columns of the merged inventory frame once the transform has added its
id columns, in pandas order. -/
def invMergedColumns : List String :=
  ["channel", "sku", "Date", "units_sold", "inventory", "inbound",
   "id", "sku_channel_id"]

/-- Rename map applied by InventoryPipeline.transform before column
selection. -/
def invRenameMap : List (String × String) :=
  [("channel", "Channel"), ("sku", "SKU"), ("units_sold", "Units"),
   ("inventory", "Inventory"), ("inbound", "Inbound")]

/-- Column names of the frame after the rename. -/
def invRenamedColumns : List String :=
  invMergedColumns.map (fun c => (invRenameMap.lookup c).getD c)

/-- Comma join of column names for the KeyError payload. -/
def joinComma (l : List String) : String :=
  l.foldl (fun a c => if a.isEmpty then c else a ++ ", " ++ c) ""

/-- Validation loop of the inventory transform
([InventoryItem(**row) for row in records]), building the output records
with the ids generated earlier in the transform. -/
def invValidateRows (sysDate : Date) : List InvRow → Except PyErr (List InvRecordOut)
  | [] => Except.ok []
  | r :: rest =>
      match inventoryItemValidate r.units_sold r.inventory r.inbound with
      | Except.error e => Except.error e
      | Except.ok uib =>
          match invValidateRows sysDate rest with
          | Except.error e => Except.error e
          | Except.ok outs =>
              Except.ok
                (⟨sysDate.compact ++ "_" ++ r.channel ++ "_" ++ r.sku,
                  r.channel ++ "_" ++ r.sku, r.rdate, r.sku, r.channel,
                  uib.1, uib.2.1, uib.2.2⟩ :: outs)

/-- Embeds InventoryPipeline.transform: zero-fill merge, id generation,
rename, selection of the schema alias columns (pandas raises KeyError
when a selected column is missing from the frame), then validation. -/
def invTransform (combined : List InvRow) (today sysDate : Date) :
    Except PyErr (List InvRecordOut) :=
  let merged := invMerged combined today
  let missing := invFinalColumns.filter (fun c => !(invRenamedColumns.contains c))
  if !missing.isEmpty then Except.error (PyErr.keyError (joinComma missing))
  else invValidateRows sysDate merged

/-- One inventory source of the registry: its name and its (file role,
filename piece) pairs. -/
structure InvCfg where
  sname : String
  files : List (String × String)
  deriving Repr

/-- The inventory parser registry (InventoryPipeline.PARSER_REGISTRY). -/
def INV_SOURCES : List InvCfg :=
  [⟨"FBA", [("primary", FBA_FILENAME_PFX)]⟩,
   ⟨"Flexport", [("levels", FLEXPORT_LEVELS_PFX), ("orders", FLEXPORT_ORDERS_PFX),
     ("inbound", FLEXPORT_INBOUND_PFX)]⟩,
   ⟨"AWD", [("primary", AWD_FILENAME_PFX)]⟩,
   ⟨"WFS", [("sales", WALMART_SALES_PFX), ("inventory", WFS_INVENTORY_PFX)]⟩]

/-- Whether a file role is optional for a source (only the Flexport
inbound feed is). -/
def isOptionalFile (src fileKey : String) : Bool :=
  fileKey == "inbound" && src == "Flexport"

/-- Whether every required file of a source resolves; find abstracts
utils.find_latest_report over the input directory, giving the report date
of the latest file for a filename piece, if any. -/
def allRequiredFound (find : String → Option Date) (cfg : InvCfg) : Bool :=
  cfg.files.all (fun kp => isOptionalFile cfg.sname kp.1 || (find kp.2).isSome)

/-- Date resolved for one file role of a source. -/
def invRoleDate (find : String → Option Date) (cfg : InvCfg) (role : String) :
    Option Date :=
  match cfg.files.lookup role with
  | some p => find p
  | none => none

/-- The date tagged onto a parsed frame:
report_dates.get("levels") or .get("inventory") or .get("primary"). -/
def invPrimaryDate (find : String → Option Date) (cfg : InvCfg) : Option Date :=
  invRoleDate find cfg "levels" <|> invRoleDate find cfg "inventory" <|>
    invRoleDate find cfg "primary"

/-- A parsed inventory frame row before the Date column is assigned. -/
structure InvParsedRow where
  channel : String
  sku : String
  units_sold : ℚ
  inventory : ℚ
  inbound : ℚ
  deriving Repr

/-- Initial status summary: every configured channel mapped to no date. -/
def initInvSummary : List (String × Option Date) :=
  CHANNEL_ORDER.map (fun ch => (ch, none))

/-- Dict-style assignment: replaces the binding of the key (keys are
unique in these summaries) or appends a new one. -/
def dictSet : List (String × Option Date) → String → Option Date →
    List (String × Option Date)
  | [], k, v => [(k, v)]
  | e :: rest, k, v =>
      if e.1 == k then (k, v) :: rest else e :: dictSet rest k v

/-- Dict-style get with a None default (status_summary.get(ch)). -/
def summaryGet (s : List (String × Option Date)) (k : String) : Option Date :=
  match s.find? (fun e => e.1 == k) with
  | some e => e.2
  | none => none

/-- One source step of InventoryPipeline.extract: skipping a source with
missing required files marks its summary channels dateless; parsed data
is tagged with the primary date and recorded per frame channel.  The
per-source parser behaviour is abstracted as parse of the source name. -/
def processSource (find : String → Option Date)
    (parse : String → Option (List InvParsedRow)) (cfg : InvCfg)
    (summ : List (String × Option Date)) :
    List InvRow × List (String × Option Date) :=
  if allRequiredFound find cfg then
    match parse cfg.sname with
    | some rows =>
        if rows.isEmpty then ([], summ)
        else
          let d := invPrimaryDate find cfg
          (rows.map (fun r =>
            ⟨r.channel, r.sku, d, r.units_sold, r.inventory, r.inbound⟩),
           (pdUnique (rows.map (fun r => r.channel))).foldl
             (fun s ch => dictSet s ch d) summ)
    | none => ([], summ)
  else
    ([],
     if cfg.sname == "Flexport" then
       dictSet (dictSet summ "DTC" none) "Reserve" none
     else dictSet summ cfg.sname none)

/-- Extraction loop over the registry. -/
def invExtractAux (find : String → Option Date)
    (parse : String → Option (List InvParsedRow)) :
    List InvCfg → List (String × Option Date) →
    List InvRow × List (String × Option Date)
  | [], summ => ([], summ)
  | cfg :: rest, summ =>
      let step := processSource find parse cfg summ
      let restOut := invExtractAux find parse rest step.2
      (step.1 ++ restOut.1, restOut.2)

/-- Embeds InventoryPipeline.extract: the concatenated parsed rows with
their Date column, plus the final status summary. -/
def inventoryExtract (find : String → Option Date)
    (parse : String → Option (List InvParsedRow)) :
    List InvRow × List (String × Option Date) :=
  invExtractAux find parse INV_SOURCES initInvSummary

/-- Rendering of one status summary value (DataPipeline.load): the ISO
date, or "No data" when none. -/
def statusLine : Option Date → String
  | some d => d.iso
  | none => "No data"

/-- Channel values each inventory parser writes into its frame (each
parser assigns one literal channel column; parse_flexport_reports emits
the two channels DTC and Reserve). -/
def sourceChannels (sname : String) : List String :=
  if sname == "FBA" then ["FBA"]
  else if sname == "Flexport" then ["DTC", "Reserve"]
  else if sname == "AWD" then ["AWD"]
  else if sname == "WFS" then ["WFS"]
  else []

/-- One row of the concatenated sales extraction output. -/
structure SalesRow where
  channel : String
  sku : String
  rdate : Date
  units : ℚ
  revenue : ℚ
  deriving Repr

/-- One synthetic bundle summary row collected during sales extraction;
its SKU column is always the sentinel "Bundles". -/
structure BundleRow where
  channel : String
  rdate : Date
  units : ℚ
  revenue : ℚ
  deriving Repr

/-- Pre-format row of the sales transform. -/
structure SalesPre where
  channel : String
  sku : String
  rdate : Date
  units : ℚ
  revenue : ℚ
  deriving Repr

/-- Validated sales output record. -/
structure SalesOut where
  rid : String
  skuChannelId : String
  rdate : Date
  sku : String
  channel : String
  units : Int
  revenue : ℚ
  deriving DecidableEq, Repr

/-- Channel-date lookup of the sales transform
(df.groupby("Channel")["Date"].first() with the system date default). -/
def salesChannelDate (df : List SalesRow) (sysDate : Date) (ch : String) : Date :=
  match df.find? (fun r => r.channel == ch) with
  | some r => r.rdate
  | none => sysDate

/-- Zero-fill template of SalesPipeline.transform: the full configured
sales channel list crossed with the master SKUs. -/
def salesTemplate (df : List SalesRow) (sysDate : Date) :
    List (String × String × Date) :=
  SALES_CHANNEL_ORDER.flatMap (fun ch =>
    SKU_ORDER.map (fun sku => (ch, sku, salesChannelDate df sysDate ch)))

/-- Left merge of the sales template with the extracted data on
[SKU, Channel, Date], NaN metrics filled with 0. -/
def salesMerged (df : List SalesRow) (sysDate : Date) : List SalesPre :=
  (salesTemplate df sysDate).flatMap (fun t =>
    match df.filter (fun r =>
        r.sku == t.2.1 && r.channel == t.1 && r.rdate == t.2.2) with
    | [] => [⟨t.1, t.2.1, t.2.2, 0, 0⟩]
    | ms => ms.map (fun r => ⟨t.1, t.2.1, t.2.2, r.units, r.revenue⟩))

/-- Bundle template rows: one "Bundles" row per configured channel at that
channel's resolved date. -/
def bundleTemplate (df : List SalesRow) (sysDate : Date) : List (String × Date) :=
  SALES_CHANNEL_ORDER.map (fun ch => (ch, salesChannelDate df sysDate ch))

/-- Left merge of the bundle template with the collected bundle rows (join
keys SKU, Channel, Date, where both SKU columns are constantly "Bundles"),
zero-filled. -/
def salesFinalBundles (df : List SalesRow) (bundles : List BundleRow)
    (sysDate : Date) : List SalesPre :=
  (bundleTemplate df sysDate).flatMap (fun t =>
    match bundles.filter (fun b => b.channel == t.1 && b.rdate == t.2) with
    | [] => [⟨t.1, "Bundles", t.2, 0, 0⟩]
    | ms => ms.map (fun b => ⟨t.1, "Bundles", t.2, b.units, b.revenue⟩))

/-- Truncation toward zero, models Series.astype(int) on a float column. -/
def pyIntOfRat (q : ℚ) : Int := if 0 ≤ q then q.floor else q.ceil

/-- Round half to even at integer precision (numpy rounding). -/
def roundHalfEven (q : ℚ) : Int :=
  let f := q.floor
  let r := q - f
  if r < 1/2 then f
  else if 1/2 < r then f + 1
  else if f % 2 = 0 then f else f + 1

/-- Models Series.round(2). -/
def pdRound2 (q : ℚ) : ℚ := (roundHalfEven (q * 100) : ℚ) / 100

/-- Models str.replace(" ", "_") on channel names. -/
def spaceToUnderscore (s : String) : String := replaceChar ' ' '_' s

/-- Type formatting and id generation of the sales transform on one row. -/
def mkSalesOut (sysDate : Date) (p : SalesPre) : SalesOut :=
  ⟨sysDate.compact ++ "_" ++ spaceToUnderscore p.channel ++ "_" ++ p.sku,
   spaceToUnderscore p.channel ++ "_" ++ p.sku,
   p.rdate, p.sku, p.channel, pyIntOfRat p.units, pdRound2 p.revenue⟩

/-- Sales validation loop ([SalesRecord(**row) for row in records]). -/
def salesValidateRows : List SalesOut → Except PyErr (List SalesOut)
  | [] => Except.ok []
  | r :: rest =>
      match salesRecordValidate r.units r.revenue with
      | Except.error e => Except.error e
      | Except.ok _ =>
          match salesValidateRows rest with
          | Except.error e => Except.error e
          | Except.ok outs => Except.ok (r :: outs)

/-- Embeds SalesPipeline.transform, with the spec-modelled
SALES_CHANNEL_ORDER standing in for the constant missing from
settings.py: bundle rows and zero-filled template rows concatenated
(bundles first), formatted, and validated. -/
def salesTransform (df : List SalesRow) (bundles : List BundleRow)
    (sysDate : Date) : Except PyErr (List SalesOut) :=
  let finalRows := salesFinalBundles df bundles sysDate ++ salesMerged df sysDate
  salesValidateRows (finalRows.map (mkSalesOut sysDate))

set_option maxRecDepth 8000

theorem flatMap_eq_map_of_singleton {α β : Type} (l : List α) (f : α → List β)
    (g : α → β) (h : ∀ x ∈ l, f x = [g x]) : l.flatMap f = l.map g := by
  induction l with
  | nil => rfl
  | cons a t ih =>
      simp only [List.flatMap_cons, List.map_cons]
      rw [h a (by simp), ih (fun x hx => h x (by simp [hx]))]
      rfl

theorem flatMap_map_singleton {α β γ : Type} (template : List α) (f : α → List β)
    (pr : β → γ) (tp : α → γ) (h : ∀ t ∈ template, (f t).map pr = [tp t]) :
    (template.flatMap f).map pr = template.map tp := by
  rw [List.map_flatMap]
  exact flatMap_eq_map_of_singleton _ _ _ h

theorem countP_flatMap_eq_sum {α β : Type} (l : List α) (f : α → List β)
    (p : β → Bool) :
    (l.flatMap f).countP p = (l.map (fun x => (f x).countP p)).sum := by
  induction l with
  | nil => rfl
  | cons a t ih => simp [List.flatMap_cons, List.countP_append, ih]

theorem sum_map_ite_one {α : Type} (l : List α) (q : α → Bool) :
    (l.map (fun x => if q x then 1 else 0)).sum = l.countP q := by
  induction l with
  | nil => rfl
  | cons a t ih => cases hq : q a <;>
      simp [List.countP_cons, hq, ih, Nat.add_comm]

theorem filter_length_le_one {α γ : Type} (l : List α) (p : α → Bool)
    (key : α → γ) (k : γ) (hp : ∀ x, p x = true → key x = k)
    (hl : List.Pairwise (fun a b => key a ≠ key b) l) :
    (l.filter p).length ≤ 1 := by
  induction l with
  | nil => simp
  | cons a t ih =>
      rw [List.pairwise_cons] at hl
      obtain ⟨ha, ht⟩ := hl
      cases hpa : p a with
      | false => simpa [List.filter_cons, hpa] using ih ht
      | true =>
          have hnil : t.filter p = [] := by
            rw [List.filter_eq_nil_iff]
            intro b hb hpb
            exact (ha b hb) ((hp a hpa).trans (hp b hpb).symm)
          simp [List.filter_cons, hpa, hnil]

theorem countP_pair_product (chs sks : List String) (c s : String) :
    ((chs.flatMap (fun ch => sks.map (fun sk => (ch, sk)))).countP
      (fun pr => pr.1 == c && pr.2 == s)) = chs.count c * sks.count s := by
  induction chs with
  | nil => simp
  | cons ch rest ih =>
      simp only [List.flatMap_cons, List.countP_append, ih, List.countP_map]
      by_cases hc : ch = c
      · subst hc
        simp only [List.count_cons, beq_self_eq_true, if_true]
        have : (List.countP ((fun pr => pr.1 == ch && pr.2 == s) ∘
            fun sk => (ch, sk)) sks) = sks.count s := by
          rw [List.count_eq_countP]
          apply List.countP_congr
          intro x _
          simp
        rw [this]
        ring
      · have hbe : (ch == c) = false := by simpa using hc
        have : (List.countP ((fun pr => pr.1 == c && pr.2 == s) ∘
            fun sk => (ch, sk)) sks) = 0 := by
          rw [List.countP_eq_zero]
          intro x _
          simp [hbe]
        rw [this, List.count_cons, hbe]
        simp

theorem countP_pair_product_nodup (chs sks : List String) (c s : String)
    (hc : chs.Nodup) (hs : sks.Nodup) :
    ((chs.flatMap (fun ch => sks.map (fun sk => (ch, sk)))).countP
      (fun pr => pr.1 == c && pr.2 == s)) =
      if c ∈ chs ∧ s ∈ sks then 1 else 0 := by
  rw [countP_pair_product]
  by_cases h1 : c ∈ chs
  · by_cases h2 : s ∈ sks
    · simp [h1, h2, List.count_eq_one_of_mem hc h1, List.count_eq_one_of_mem hs h2]
    · simp [h2, List.count_eq_zero_of_not_mem h2]
  · simp [h1, List.count_eq_zero_of_not_mem h1]

theorem pdUniqueAux_cons {α : Type} [BEq α] (seen : List α) (b : α) (t : List α) :
    pdUniqueAux seen (b :: t) =
      if seen.contains b then pdUniqueAux seen t
      else b :: pdUniqueAux (seen ++ [b]) t := rfl

theorem mem_pdUniqueAux {α : Type} [BEq α] [LawfulBEq α] (l : List α)
    (seen : List α) (a : α) :
    a ∈ pdUniqueAux seen l ↔ a ∈ l ∧ a ∉ seen := by
  induction l generalizing seen with
  | nil => simp [pdUniqueAux]
  | cons b t ih =>
      by_cases hb : seen.contains b = true
      · rw [pdUniqueAux_cons, if_pos hb, ih]
        have hbmem : b ∈ seen := List.elem_iff.mp hb
        simp only [List.mem_cons]
        constructor
        · rintro ⟨h1, h2⟩; exact ⟨Or.inr h1, h2⟩
        · rintro ⟨h1, h2⟩
          rcases h1 with h1 | h1
          · exact absurd (h1 ▸ hbmem) h2
          · exact ⟨h1, h2⟩
      · rw [pdUniqueAux_cons, if_neg hb]
        have hbmem : b ∉ seen := fun h => hb (List.elem_iff.mpr h)
        simp only [List.mem_cons, ih]
        constructor
        · rintro (rfl | ⟨h1, h2⟩)
          · exact ⟨Or.inl rfl, hbmem⟩
          · refine ⟨Or.inr h1, fun hs => h2 ?_⟩
            simp [hs]
        · rintro ⟨rfl | h1, h2⟩
          · exact Or.inl rfl
          · by_cases hab : a = b
            · exact Or.inl hab
            · refine Or.inr ⟨h1, fun hs => h2 ?_⟩
              simp only [List.mem_append, List.mem_singleton] at hs
              rcases hs with hs | hs
              · exact hs
              · exact absurd hs hab

theorem mem_pdUnique {α : Type} [BEq α] [LawfulBEq α] (l : List α) (a : α) :
    a ∈ pdUnique l ↔ a ∈ l := by
  rw [pdUnique, mem_pdUniqueAux]
  simp

theorem nodup_pdUniqueAux {α : Type} [BEq α] [LawfulBEq α] (l : List α)
    (seen : List α) : (pdUniqueAux seen l).Nodup := by
  induction l generalizing seen with
  | nil => simp [pdUniqueAux]
  | cons b t ih =>
      by_cases hb : seen.contains b = true
      · rw [pdUniqueAux_cons, if_pos hb]
        exact ih seen
      · rw [pdUniqueAux_cons, if_neg hb]
        rw [List.nodup_cons]
        refine ⟨fun hmem => ?_, ih _⟩
        rw [mem_pdUniqueAux] at hmem
        exact hmem.2 (by simp)

theorem nodup_pdUnique {α : Type} [BEq α] [LawfulBEq α] (l : List α) :
    (pdUnique l).Nodup := nodup_pdUniqueAux l []

theorem lookup_map_graph {β : Type} (keys : List String) (g : String → β)
    (a : String) (h : a ∈ keys) :
    (keys.map (fun k => (k, g k))).lookup a = some (g a) := by
  induction keys with
  | nil => cases h
  | cons k t ih =>
      simp only [List.map_cons, List.lookup_cons]
      by_cases hk : a = k
      · subst hk; simp
      · have ht : a ∈ t := by
          rcases List.mem_cons.mp h with h1 | h1
          · exact absurd h1 hk
          · exact h1
        have : (a == k) = false := by simpa using hk
        simp [this, ih ht]

theorem lookup_map_graph_none {β : Type} (keys : List String) (g : String → β)
    (a : String) (h : a ∉ keys) :
    (keys.map (fun k => (k, g k))).lookup a = none := by
  induction keys with
  | nil => rfl
  | cons k t ih =>
      simp only [List.map_cons, List.lookup_cons]
      have hk : a ≠ k := fun hak => h (by simp [hak])
      have : (a == k) = false := by simpa using hk
      simp [this, ih (fun hat => h (by simp [hat]))]

theorem summaryGet_dictSet_same (s : List (String × Option Date)) (k : String)
    (v : Option Date) : summaryGet (dictSet s k v) k = v := by
  induction s with
  | nil => simp [dictSet, summaryGet]
  | cons e rest ih =>
      cases he : (e.1 == k) with
      | true =>
          simp only [dictSet, he, if_true]
          simp [summaryGet, List.find?_cons_of_pos]
      | false =>
          simp only [dictSet, he, Bool.false_eq_true, if_false]
          simp only [summaryGet] at ih ⊢
          rw [List.find?_cons_of_neg _ (by simp [he])]
          exact ih

theorem summaryGet_dictSet_other (s : List (String × Option Date)) (k : String)
    (v : Option Date) (k2 : String) (h : k2 ≠ k) :
    summaryGet (dictSet s k v) k2 = summaryGet s k2 := by
  have hkk : (k == k2) = false := by
    simpa using fun hh => h hh.symm
  induction s with
  | nil =>
      simp only [dictSet, summaryGet]
      rw [List.find?_cons_of_neg _ (by simp [hkk])]
  | cons e rest ih =>
      cases he : (e.1 == k) with
      | true =>
          have he1 : e.1 = k := by simpa using he
          simp only [dictSet, he, if_true]
          simp only [summaryGet]
          rw [List.find?_cons_of_neg _ (by simp [hkk]),
            List.find?_cons_of_neg _ (by simp [he1, hkk])]
      | false =>
          simp only [dictSet, he, Bool.false_eq_true, if_false]
          simp only [summaryGet] at ih ⊢
          cases he2 : (e.1 == k2) with
          | true =>
              rw [List.find?_cons_of_pos _ (by simp [he2]),
                List.find?_cons_of_pos _ (by simp [he2])]
          | false =>
              rw [List.find?_cons_of_neg _ (by simp [he2]),
                List.find?_cons_of_neg _ (by simp [he2])]
              exact ih

theorem summaryGet_foldl_dictSet_ne (chs : List String) (d : Option Date)
    (s : List (String × Option Date)) (k : String) (h : ∀ ch ∈ chs, ch ≠ k) :
    summaryGet (chs.foldl (fun acc ch => dictSet acc ch d) s) k = summaryGet s k := by
  induction chs generalizing s with
  | nil => rfl
  | cons c t ih =>
      simp only [List.foldl_cons]
      rw [ih _ (fun x hx => h x (by simp [hx]))]
      exact summaryGet_dictSet_other _ _ _ _ (fun hk => (h c (by simp)) hk.symm)

theorem date_eq_iff (a b : Date) : a = b ↔ a.y = b.y ∧ a.m = b.m ∧ a.d = b.d := by
  cases a; cases b; simp

theorem dateLtB_iff (a b : Date) :
    dateLtB a b = true ↔
      a.y < b.y ∨ (a.y = b.y ∧ (a.m < b.m ∨ (a.m = b.m ∧ a.d < b.d))) := by
  simp [dateLtB]

theorem dateLeB_iff (a b : Date) :
    dateLeB a b = true ↔ dateLtB a b = true ∨ a = b := by
  simp [dateLeB]

theorem dateLeB_refl (a : Date) : dateLeB a a = true := by
  rw [dateLeB_iff]; exact Or.inr rfl

theorem dateLtB_to_le {a b : Date} (h : dateLtB a b = true) : dateLeB a b = true := by
  rw [dateLeB_iff]; exact Or.inl h

theorem dateLeB_trans {a b c : Date} (h1 : dateLeB a b = true)
    (h2 : dateLeB b c = true) : dateLeB a c = true := by
  rw [dateLeB_iff, dateLtB_iff, date_eq_iff] at *
  rcases h1 with h1 | h1 <;> rcases h2 with h2 | h2 <;> omega

theorem dateLeB_of_not_lt {a b : Date} (h : dateLtB a b = false) :
    dateLeB b a = true := by
  rw [dateLeB_iff, dateLtB_iff, date_eq_iff]
  rw [← Bool.not_eq_true, dateLtB_iff] at h
  omega

theorem foldl_pickMax_spec (xs : List (String × Date)) (x : String × Date) :
    (xs.foldl (fun best c => if dateLtB best.2 c.2 then c else best) x = x ∨
      xs.foldl (fun best c => if dateLtB best.2 c.2 then c else best) x ∈ xs) ∧
    dateLeB x.2 (xs.foldl (fun best c => if dateLtB best.2 c.2 then c else best) x).2 = true ∧
    ∀ c ∈ xs, dateLeB c.2
      (xs.foldl (fun best c => if dateLtB best.2 c.2 then c else best) x).2 = true := by
  induction xs generalizing x with
  | nil => simp [dateLeB_refl]
  | cons c t ih =>
      simp only [List.foldl_cons]
      cases h : dateLtB x.2 c.2 with
      | true =>
          rw [if_pos rfl]
          obtain ⟨hmem, hxle, hall⟩ := ih c
          refine ⟨?_, dateLeB_trans (dateLtB_to_le h) hxle, ?_⟩
          · rcases hmem with hmem | hmem
            · exact Or.inr (by simp [hmem])
            · exact Or.inr (by simp [hmem])
          · intro d hd
            rcases List.mem_cons.mp hd with rfl | hd
            · exact hxle
            · exact hall d hd
      | false =>
          rw [if_neg (by simp)]
          obtain ⟨hmem, hxle, hall⟩ := ih x
          refine ⟨?_, hxle, ?_⟩
          · rcases hmem with hmem | hmem
            · exact Or.inl hmem
            · exact Or.inr (by simp [hmem])
          · intro d hd
            rcases List.mem_cons.mp hd with rfl | hd
            · exact dateLeB_trans (dateLeB_of_not_lt h) hxle
            · exact hall d hd

theorem pickFirstMax_spec (l : List (String × Date)) (r : String × Date)
    (h : pickFirstMax l = some r) :
    r ∈ l ∧ ∀ x ∈ l, dateLeB x.2 r.2 = true := by
  cases l with
  | nil => cases h
  | cons x xs =>
      simp only [pickFirstMax, Option.some.injEq] at h
      obtain ⟨hmem, hxle, hall⟩ := foldl_pickMax_spec xs x
      subst h
      constructor
      · rcases hmem with hmem | hmem
        · rw [hmem]; exact List.mem_cons_self x xs
        · exact List.mem_cons_of_mem _ hmem
      · intro d hd
        rcases List.mem_cons.mp hd with rfl | hd
        · exact hxle
        · exact hall d hd

theorem pickFirstMax_eq_none_iff (l : List (String × Date)) :
    pickFirstMax l = none ↔ l = [] := by
  cases l <;> simp [pickFirstMax]

theorem invMerged_pairs (combined : List InvRow) (today : Date)
    (h : List.Pairwise (fun a b => (a.channel, a.sku) ≠ (b.channel, b.sku)) combined) :
    (invMerged combined today).map (fun r => (r.channel, r.sku)) =
      (invTemplate combined today).map (fun t => (t.1, t.2.1)) := by
  apply flatMap_map_singleton
  intro t _
  have hle := filter_length_le_one combined
    (fun r => r.channel == t.1 && r.sku == t.2.1 && r.rdate == t.2.2)
    (fun r => (r.channel, r.sku)) (t.1, t.2.1)
    (fun x hx => by
      simp only [Bool.and_eq_true, beq_iff_eq] at hx
      simp [hx.1.1, hx.1.2]) h
  cases hf : combined.filter
      (fun r => r.channel == t.1 && r.sku == t.2.1 && r.rdate == t.2.2) with
  | nil => simp [invMerged, hf]
  | cons m ms =>
      have hms : ms = [] := by
        rw [hf] at hle
        have : ms.length = 0 := by simpa using hle
        exact List.length_eq_zero.mp this
      subst hms
      simp [invMerged, hf]

theorem invTemplate_pairs (combined : List InvRow) (today : Date) :
    (invTemplate combined today).map (fun t => (t.1, t.2.1)) =
      (pdUnique (combined.map (fun r => r.channel))).flatMap
        (fun ch => SKU_ORDER.map (fun sk => (ch, sk))) := by
  simp only [invTemplate, List.map_flatMap, List.map_map]
  rfl

theorem invMerged_countP (combined : List InvRow) (today : Date)
    (h : List.Pairwise (fun a b => (a.channel, a.sku) ≠ (b.channel, b.sku)) combined)
    (c s : String) :
    (invMerged combined today).countP (fun r => r.channel == c && r.sku == s) =
      if c ∈ combined.map (fun r => r.channel) ∧ s ∈ SKU_ORDER then 1 else 0 := by
  have h1 : (invMerged combined today).countP (fun r => r.channel == c && r.sku == s)
      = ((invMerged combined today).map (fun r => (r.channel, r.sku))).countP
          (fun pr => pr.1 == c && pr.2 == s) := by
    rw [List.countP_map]; rfl
  rw [h1, invMerged_pairs _ _ h, invTemplate_pairs,
    countP_pair_product_nodup _ _ _ _ (nodup_pdUnique _) (by decide)]
  exact if_congr (and_congr_left' (mem_pdUnique _ _)) rfl rfl

theorem salesRecordValidate_ok (u : Int) (r : ℚ) :
    salesRecordValidate u r = Except.ok (u, r) := by
  have h1 : fieldGe0 SalesRecordFields "units" = false := by rfl
  have h2 : fieldGe0 SalesRecordFields "revenue" = false := by rfl
  simp [salesRecordValidate, h1, h2]

theorem salesValidateRows_ok (l : List SalesOut) :
    salesValidateRows l = Except.ok l := by
  induction l with
  | nil => rfl
  | cons r t ih => simp [salesValidateRows, salesRecordValidate_ok, ih]

theorem salesTransform_eq (df : List SalesRow) (bundles : List BundleRow)
    (sysDate : Date) :
    salesTransform df bundles sysDate =
      Except.ok ((salesFinalBundles df bundles sysDate ++
        salesMerged df sysDate).map (mkSalesOut sysDate)) := by
  simp [salesTransform, salesValidateRows_ok]

theorem salesMerged_pairs (df : List SalesRow) (sysDate : Date)
    (h : List.Pairwise (fun a b => (a.channel, a.sku) ≠ (b.channel, b.sku)) df) :
    (salesMerged df sysDate).map (fun r => (r.channel, r.sku)) =
      SALES_CHANNEL_ORDER.flatMap (fun ch => SKU_ORDER.map (fun sk => (ch, sk))) := by
  have hstep : (salesMerged df sysDate).map (fun r => (r.channel, r.sku)) =
      (salesTemplate df sysDate).map (fun t => (t.1, t.2.1)) := by
    apply flatMap_map_singleton
    intro t _
    have hle := filter_length_le_one df
      (fun r => r.sku == t.2.1 && r.channel == t.1 && r.rdate == t.2.2)
      (fun r => (r.channel, r.sku)) (t.1, t.2.1)
      (fun x hx => by
        simp only [Bool.and_eq_true, beq_iff_eq] at hx
        simp [hx.1.1, hx.1.2]) h
    cases hf : df.filter
        (fun r => r.sku == t.2.1 && r.channel == t.1 && r.rdate == t.2.2) with
    | nil => simp [salesMerged, hf]
    | cons m ms =>
        have hms : ms = [] := by
          rw [hf] at hle
          have : ms.length = 0 := by simpa using hle
          exact List.length_eq_zero.mp this
        subst hms
        simp [salesMerged, hf]
  rw [hstep]
  simp only [salesTemplate, List.map_flatMap, List.map_map]
  rfl

theorem salesFinalBundles_pairs (df : List SalesRow) (bundles : List BundleRow)
    (sysDate : Date)
    (h : List.Pairwise (fun a b => a.channel ≠ b.channel) bundles) :
    (salesFinalBundles df bundles sysDate).map (fun r => (r.channel, r.sku)) =
      SALES_CHANNEL_ORDER.map (fun ch => (ch, "Bundles")) := by
  have hstep : (salesFinalBundles df bundles sysDate).map (fun r => (r.channel, r.sku)) =
      (bundleTemplate df sysDate).map (fun t => (t.1, "Bundles")) := by
    apply flatMap_map_singleton
    intro t _
    have hle := filter_length_le_one bundles
      (fun b => b.channel == t.1 && b.rdate == t.2)
      (fun b => b.channel) t.1
      (fun x hx => by
        simp only [Bool.and_eq_true, beq_iff_eq] at hx
        exact hx.1) h
    cases hf : bundles.filter (fun b => b.channel == t.1 && b.rdate == t.2) with
    | nil => simp [salesFinalBundles, hf]
    | cons m ms =>
        have hms : ms = [] := by
          rw [hf] at hle
          have : ms.length = 0 := by simpa using hle
          exact List.length_eq_zero.mp this
        subst hms
        simp [salesFinalBundles, hf]
  rw [hstep]
  simp only [bundleTemplate, List.map_map]
  rfl

theorem salesTransform_countP (df : List SalesRow) (bundles : List BundleRow)
    (sysDate : Date)
    (hdf : List.Pairwise (fun a b => (a.channel, a.sku) ≠ (b.channel, b.sku)) df)
    (hb : List.Pairwise (fun a b => a.channel ≠ b.channel) bundles)
    (c s : String) :
    (salesTransform df bundles sysDate).map
        (fun out => out.countP (fun r => r.channel == c && r.sku == s)) =
      Except.ok (if c ∈ SALES_CHANNEL_ORDER ∧ (s ∈ SKU_ORDER ∨ s = "Bundles")
        then 1 else 0) := by
  rw [salesTransform_eq]
  simp only [Except.map]
  congr 1
  have hmk : ((salesFinalBundles df bundles sysDate ++
      salesMerged df sysDate).map (mkSalesOut sysDate)).countP
        (fun r => r.channel == c && r.sku == s) =
      (salesFinalBundles df bundles sysDate ++ salesMerged df sysDate).countP
        (fun p => p.channel == c && p.sku == s) := by
    rw [List.countP_map]; rfl
  rw [hmk, List.countP_append]
  have hbp : (salesFinalBundles df bundles sysDate).countP
      (fun p => p.channel == c && p.sku == s) =
      (SALES_CHANNEL_ORDER.map (fun ch => (ch, "Bundles"))).countP
        (fun pr => pr.1 == c && pr.2 == s) := by
    rw [← salesFinalBundles_pairs df bundles sysDate hb, List.countP_map]; rfl
  have hmp : (salesMerged df sysDate).countP
      (fun p => p.channel == c && p.sku == s) =
      (SALES_CHANNEL_ORDER.flatMap (fun ch => SKU_ORDER.map (fun sk => (ch, sk)))).countP
        (fun pr => pr.1 == c && pr.2 == s) := by
    rw [← salesMerged_pairs df sysDate hdf, List.countP_map]; rfl
  rw [hbp, hmp, countP_pair_product_nodup _ _ _ _ (by decide) (by decide)]
  by_cases hs : s = "Bundles"
  · subst hs
    have hB : ("Bundles" : String) ∉ SKU_ORDER := by decide
    have hbc : (SALES_CHANNEL_ORDER.map (fun ch => (ch, "Bundles"))).countP
        (fun pr => pr.1 == c && pr.2 == "Bundles") =
        if c ∈ SALES_CHANNEL_ORDER then 1 else 0 := by
      rw [List.countP_map]
      have hcg : SALES_CHANNEL_ORDER.countP
          ((fun pr => pr.1 == c && pr.2 == "Bundles") ∘ (fun ch => (ch, "Bundles"))) =
          SALES_CHANNEL_ORDER.countP (fun ch => ch == c) := by
        apply List.countP_congr
        intro x _
        simp
      rw [hcg, ← List.count_eq_countP]
      by_cases hc : c ∈ SALES_CHANNEL_ORDER
      · simp [hc, List.count_eq_one_of_mem (by decide) hc]
      · simp [hc, List.count_eq_zero_of_not_mem hc]
    rw [hbc]
    by_cases hc : c ∈ SALES_CHANNEL_ORDER <;> simp [hc, hB]
  · have hbz : (SALES_CHANNEL_ORDER.map (fun ch => (ch, "Bundles"))).countP
        (fun pr => pr.1 == c && pr.2 == s) = 0 := by
      rw [List.countP_eq_zero]
      intro x hx
      simp only [List.mem_map] at hx
      obtain ⟨ch, _, rfl⟩ := hx
      have hbs : (("Bundles" : String) == s) = false := by
        simpa using fun hh => hs hh.symm
      simp [hbs]
    rw [hbz]
    by_cases hc : c ∈ SALES_CHANNEL_ORDER <;>
      by_cases hsk : s ∈ SKU_ORDER <;> simp [hc, hsk, hs]

theorem processSource_channels (find : String → Option Date)
    (parse : String → Option (List InvParsedRow)) (cfg : InvCfg)
    (summ : List (String × Option Date))
    (hown : ∀ sname rows, parse sname = some rows →
      ∀ r ∈ rows, r.channel ∈ sourceChannels sname) :
    ∀ r ∈ (processSource find parse cfg summ).1,
      r.channel ∈ sourceChannels cfg.sname := by
  intro r hr
  unfold processSource at hr
  split at hr
  · split at hr
    next rows hp =>
      split at hr
      · cases hr
      · simp only [List.mem_map] at hr
        obtain ⟨r0, hr0, rfl⟩ := hr
        exact hown _ _ hp r0 hr0
    next hp => cases hr
  · cases hr

theorem processSource_summary_preserve (find : String → Option Date)
    (parse : String → Option (List InvParsedRow)) (cfg : InvCfg)
    (summ : List (String × Option Date))
    (hown : ∀ sname rows, parse sname = some rows →
      ∀ r ∈ rows, r.channel ∈ sourceChannels sname)
    (hAup : "AWD" ∉ sourceChannels cfg.sname) (hname : cfg.sname ≠ "AWD") :
    summaryGet (processSource find parse cfg summ).2 "AWD" =
      summaryGet summ "AWD" := by
  unfold processSource
  split
  · split
    next rows hp =>
      split
      · rfl
      · apply summaryGet_foldl_dictSet_ne
        intro ch hch
        rw [mem_pdUnique] at hch
        simp only [List.mem_map] at hch
        obtain ⟨r0, hr0, rfl⟩ := hch
        exact fun heq => hAup (heq ▸ hown _ _ hp r0 hr0)
    next hp => rfl
  · 
    by_cases hfl : (cfg.sname == "Flexport") = true
    · rw [if_pos hfl]
      rw [summaryGet_dictSet_other _ _ _ _ (by decide),
        summaryGet_dictSet_other _ _ _ _ (by decide)]
    · rw [if_neg hfl]
      exact summaryGet_dictSet_other _ _ _ _ (fun h => hname h.symm)

theorem processSource_awd_nil (find : String → Option Date)
    (parse : String → Option (List InvParsedRow))
    (summ : List (String × Option Date))
    (hnd : find AWD_FILENAME_PFX = none ∨ parse "AWD" = none ∨
      parse "AWD" = some []) :
    (processSource find parse ⟨"AWD", [("primary", AWD_FILENAME_PFX)]⟩ summ).1 = [] := by
  rcases hnd with hnd | hnd | hnd
  · have hfound : allRequiredFound find ⟨"AWD", [("primary", AWD_FILENAME_PFX)]⟩ = false := by
      simp [allRequiredFound, isOptionalFile, hnd]
    simp [processSource, hfound]
  · by_cases hf : allRequiredFound find ⟨"AWD", [("primary", AWD_FILENAME_PFX)]⟩ <;>
      simp [processSource, hf, hnd]
  · by_cases hf : allRequiredFound find ⟨"AWD", [("primary", AWD_FILENAME_PFX)]⟩ <;>
      simp [processSource, hf, hnd]

theorem processSource_awd_summary (find : String → Option Date)
    (parse : String → Option (List InvParsedRow))
    (summ : List (String × Option Date))
    (hnd : find AWD_FILENAME_PFX = none ∨ parse "AWD" = none ∨
      parse "AWD" = some [])
    (hs : summaryGet summ "AWD" = none) :
    summaryGet
      (processSource find parse ⟨"AWD", [("primary", AWD_FILENAME_PFX)]⟩ summ).2
      "AWD" = none := by
  by_cases hf : allRequiredFound find ⟨"AWD", [("primary", AWD_FILENAME_PFX)]⟩
  · rcases hnd with hnd | hnd | hnd
    · simp [allRequiredFound, isOptionalFile, hnd] at hf
    · simp [processSource, hf, hnd, hs]
    · simp [processSource, hf, hnd, hs]
  · have : (processSource find parse ⟨"AWD", [("primary", AWD_FILENAME_PFX)]⟩ summ).2 =
        dictSet summ "AWD" none := by
      simp [processSource, hf]
    rw [this, summaryGet_dictSet_same]

theorem countP_fst_product (chs sks : List String) (c : String) :
    (chs.flatMap (fun ch => sks.map (fun sk => (ch, sk)))).countP
      (fun pr => pr.1 == c) = chs.count c * sks.length := by
  induction chs with
  | nil => simp
  | cons ch rest ih =>
      simp only [List.flatMap_cons, List.countP_append, ih, List.countP_map]
      by_cases hc : ch = c
      · subst hc
        have hlen : List.countP ((fun pr => pr.1 == ch) ∘ fun sk => (ch, sk)) sks =
            sks.length := by
          rw [List.countP_eq_length]
          intro a _
          simp
        rw [hlen, List.count_cons]
        simp [Nat.add_mul]
        ring
      · have hbe : (ch == c) = false := by simpa using hc
        have hz : List.countP ((fun pr => pr.1 == c) ∘ fun sk => (ch, sk)) sks = 0 := by
          rw [List.countP_eq_zero]
          intro a _
          simp [hbe]
        rw [hz, List.count_cons, hbe]
        simp

theorem pyIntOfRat_zero : pyIntOfRat 0 = 0 := by
  with_unfolding_all decide

theorem pdRound2_zero : pdRound2 0 = 0 := by
  with_unfolding_all decide

theorem salesTransform_channel_total (df : List SalesRow) (bundles : List BundleRow)
    (sysDate : Date) (ch0 : String)
    (hdf : List.Pairwise (fun a b => (a.channel, a.sku) ≠ (b.channel, b.sku)) df)
    (hb : List.Pairwise (fun a b => a.channel ≠ b.channel) bundles)
    (hch : ch0 ∈ SALES_CHANNEL_ORDER) :
    (salesTransform df bundles sysDate).map
      (fun out => (out.filter (fun r => r.channel == ch0)).length) = Except.ok 33 := by
  rw [salesTransform_eq]
  simp only [Except.map]
  congr 1
  rw [← List.countP_eq_length_filter]
  have hmk : ((salesFinalBundles df bundles sysDate ++
      salesMerged df sysDate).map (mkSalesOut sysDate)).countP
        (fun r => r.channel == ch0) =
      (salesFinalBundles df bundles sysDate ++ salesMerged df sysDate).countP
        (fun p => p.channel == ch0) := by
    rw [List.countP_map]; rfl
  rw [hmk, List.countP_append]
  have hbp : (salesFinalBundles df bundles sysDate).countP
      (fun p => p.channel == ch0) =
      (SALES_CHANNEL_ORDER.map (fun ch => (ch, "Bundles"))).countP
        (fun pr => pr.1 == ch0) := by
    rw [← salesFinalBundles_pairs df bundles sysDate hb, List.countP_map]; rfl
  have hmp : (salesMerged df sysDate).countP (fun p => p.channel == ch0) =
      (SALES_CHANNEL_ORDER.flatMap
        (fun ch => SKU_ORDER.map (fun sk => (ch, sk)))).countP
        (fun pr => pr.1 == ch0) := by
    rw [← salesMerged_pairs df sysDate hdf, List.countP_map]; rfl
  have hcnt : SALES_CHANNEL_ORDER.count ch0 = 1 :=
    List.count_eq_one_of_mem (by decide) hch
  have hb1 : (SALES_CHANNEL_ORDER.map (fun ch => (ch, "Bundles"))).countP
      (fun pr => pr.1 == ch0) = 1 := by
    rw [List.countP_map]
    have : SALES_CHANNEL_ORDER.countP
        ((fun pr => pr.1 == ch0) ∘ fun ch => (ch, "Bundles")) =
        SALES_CHANNEL_ORDER.count ch0 := by
      rw [List.count_eq_countP]
      apply List.countP_congr
      intro a _
      simp
    rw [this, hcnt]
  rw [hbp, hmp, hb1, countP_fst_product, hcnt]
  rfl

theorem salesTransform_absent_zero (df : List SalesRow) (bundles : List BundleRow)
    (sysDate : Date) (ch0 : String)
    (hno : ∀ r ∈ df, r.channel ≠ ch0) (hnb : ∀ b ∈ bundles, b.channel ≠ ch0) :
    (salesTransform df bundles sysDate).map
      (fun out => out.all (fun r => !(r.channel == ch0) ||
        (r.units == 0 && decide (r.revenue = 0)))) = Except.ok true := by
  rw [salesTransform_eq]
  simp only [Except.map]
  congr 1
  rw [List.all_eq_true]
  intro r hr
  rw [List.mem_map] at hr
  obtain ⟨pre, hpre, rfl⟩ := hr
  rw [List.mem_append] at hpre
  by_cases hch : pre.channel = ch0
  case neg =>
    have : ((mkSalesOut sysDate pre).channel == ch0) = false := by
      simpa [mkSalesOut] using hch
    simp [this]
  case pos =>
    have hz : pre.units = 0 ∧ pre.revenue = 0 := by
      rcases hpre with hpre | hpre
      · simp only [salesFinalBundles, List.mem_flatMap] at hpre
        obtain ⟨t, _, hmem⟩ := hpre
        cases hf : bundles.filter (fun b => b.channel == t.1 && b.rdate == t.2) with
        | nil =>
            rw [hf] at hmem
            simp only [List.mem_singleton] at hmem
            subst hmem
            exact ⟨rfl, rfl⟩
        | cons m ms =>
            rw [hf] at hmem
            simp only [List.mem_map] at hmem
            obtain ⟨b, _, hpre_eq⟩ := hmem
            have hm : m ∈ bundles.filter (fun b => b.channel == t.1 && b.rdate == t.2) := by
              rw [hf]; exact List.mem_cons_self _ _
            have hmmem : m ∈ bundles := List.mem_of_mem_filter hm
            have hmpred := List.of_mem_filter hm
            simp only [Bool.and_eq_true, beq_iff_eq] at hmpred
            have ht1 : t.1 = ch0 := by
              rw [← hpre_eq] at hch
              exact hch
            exact absurd (hmpred.1.trans ht1) (hnb m hmmem)
      · simp only [salesMerged, List.mem_flatMap] at hpre
        obtain ⟨t, _, hmem⟩ := hpre
        cases hf : df.filter
            (fun r => r.sku == t.2.1 && r.channel == t.1 && r.rdate == t.2.2) with
        | nil =>
            rw [hf] at hmem
            simp only [List.mem_singleton] at hmem
            subst hmem
            exact ⟨rfl, rfl⟩
        | cons m ms =>
            rw [hf] at hmem
            simp only [List.mem_map] at hmem
            obtain ⟨b, _, hpre_eq⟩ := hmem
            have hm : m ∈ df.filter
                (fun r => r.sku == t.2.1 && r.channel == t.1 && r.rdate == t.2.2) := by
              rw [hf]; exact List.mem_cons_self _ _
            have hmmem : m ∈ df := List.mem_of_mem_filter hm
            have hmpred := List.of_mem_filter hm
            simp only [Bool.and_eq_true, beq_iff_eq] at hmpred
            have ht1 : t.1 = ch0 := by
              rw [← hpre_eq] at hch
              exact hch
            exact absurd (hmpred.1.2.trans ht1) (hno m hmmem)
    have h1 : (mkSalesOut sysDate pre).units = 0 := by
      show pyIntOfRat pre.units = 0
      rw [hz.1, pyIntOfRat_zero]
    have h2 : (mkSalesOut sysDate pre).revenue = 0 := by
      show pdRound2 pre.revenue = 0
      rw [hz.2, pdRound2_zero]
    simp [h1, h2]

theorem flexportFiltered_filter (rows : List LevelsRow) (sku : String)
    (h : sku ∈ SKU_ORDER) :
    (flexportFiltered rows).filter (fun r => r.msku == sku) =
      rows.filter (fun r => r.msku == sku) := by
  rw [flexportFiltered, List.filter_filter]
  apply List.filter_congr
  intro r _
  cases hm : (r.msku == sku) with
  | false => simp
  | true =>
      have hr : r.msku = sku := by simpa using hm
      simp only [hr, Bool.true_and, beq_self_eq_true]
      exact List.elem_iff.mpr h

theorem flexport_absent_filter_nil (rows : List LevelsRow) (sku : String)
    (h : sku ∈ SKU_ORDER) (hm : sku ∉ flexportAggSkus rows) :
    rows.filter (fun r => r.msku == sku) = [] := by
  rw [List.filter_eq_nil_iff]
  intro r hr hpred
  have hrm : r.msku = sku := by simpa using hpred
  apply hm
  rw [flexportAggSkus, mem_pdUnique]
  simp only [List.mem_map]
  refine ⟨r, ?_, hrm⟩
  rw [flexportFiltered]
  rw [List.mem_filter]
  refine ⟨hr, ?_⟩
  rw [hrm]
  exact List.elem_iff.mpr h

theorem flexportReserveFinal_lookup (rows : List LevelsRow) (sku : String)
    (h : sku ∈ SKU_ORDER) :
    (flexportReserveFinal rows).lookup sku =
      some (max
        (((rows.filter (fun r => r.msku == sku)).map
            (fun r => toNumeric0 r.rsQty)).sum -
          ((rows.filter (fun r => r.msku == sku)).map
            (fun r => toNumeric0 r.wipQty)).sum) 0) := by
  rw [flexportReserveFinal, lookup_map_graph _ _ _ h]
  congr 1
  by_cases hm : sku ∈ flexportAggSkus rows
  · rw [flexportReserveAgg, lookup_map_graph _ _ _ hm]
    simp only [Option.getD_some]
    rw [flexportSumRS, flexportSumWIP, flexportFiltered_filter _ _ h]
  · rw [flexportReserveAgg, lookup_map_graph_none _ _ _ hm]
    simp only [Option.getD_none]
    rw [flexport_absent_filter_nil _ _ h hm]
    simp

/-- C3 counterexample: on the storefront row with Sales channel "TikTok",
variant SKU "5002" (mapped to ["5001", "5001"]), Quantity ordered 3 and
Net sales 30, no row of the parser's grouped output carries Units 3 and
Revenue 15, refuting the claimed single normalized row (3, 15). -/
theorem c3_counterexample :
    (parseShopifySales [⟨"TikTok", "5002", 3, 30⟩]).map
      (fun pr => (pr.1.getD []).any
        (fun g => decide (g.units = 3) && decide (g.revenue = 15))) =
      Except.ok false := by
  with_unfolding_all rfl

/-- C3 amended: that row emits exactly one grouped normalized row, with
SKU "5001", Channel "TikTok Shopify", Units 6 and Revenue 30 — the two
expanded bundle members (each Units 3, Revenue 15) are summed by the
(SKU, Channel) grouping because both map to the same internal SKU — and
the "TikTok Shopify" bucket's bundle statistics are incremented by 3
units and 30 revenue. -/
theorem c3_amended :
    parseShopifySales [⟨"TikTok", "5002", 3, 30⟩] =
      Except.ok (some [⟨"5001", "TikTok Shopify", 6, 30⟩],
        [("Shopify", 0, 0), ("TikTok Shopify", 3, 30), ("Target", 0, 0),
         ("Others", 0, 0)]) := by
  with_unfolding_all rfl

/-- C4: for every sales row whose external key maps to a non-empty list
of n internal SKUs, bundle expansion emits exactly n items, each carrying
the row's unit quantity unchanged (not divided by n) and revenue equal to
the row's normalized revenue divided by n, and the n revenue shares sum
back to the row's revenue exactly (rationals model the floats). -/
theorem c4_bundle_expansion (mapping : List (String × List String))
    (key : String) (qty : ℚ) (rev : PyVal) (l : List String) (r : ℚ)
    (hl : mapping.lookup (pyTrim key) = some l) (hne : l ≠ [])
    (hr : cleanMoney rev = Except.ok r) :
    processBundledRow mapping key qty rev =
      Except.ok (l.map (fun sku => ⟨sku, qty, r / (l.length : ℚ)⟩),
        decide (1 < l.length), false) ∧
    (l.map (fun sku => (⟨sku, qty, r / (l.length : ℚ)⟩ : BItem))).length = l.length ∧
    (∀ it ∈ l.map (fun sku => (⟨sku, qty, r / (l.length : ℚ)⟩ : BItem)),
      it.units = qty ∧ it.revenue = r / (l.length : ℚ)) ∧
    ((l.map (fun sku => (⟨sku, qty, r / (l.length : ℚ)⟩ : BItem))).map
      (fun it => it.revenue)).sum = r := by
  have hie : l.isEmpty = false := by
    cases l
    · exact absurd rfl hne
    · rfl
  refine ⟨?_, by simp, ?_, ?_⟩
  · simp [processBundledRow, hl, hie, hr]
  · intro it hit
    simp only [List.mem_map] at hit
    obtain ⟨sku, _, rfl⟩ := hit
    exact ⟨rfl, rfl⟩
  · rw [List.map_map]
    have hc : ((fun it => it.revenue) ∘
        fun sku => (⟨sku, qty, r / (l.length : ℚ)⟩ : BItem)) =
        fun _ => r / (l.length : ℚ) := rfl
    rw [hc, List.map_const', List.sum_replicate, nsmul_eq_mul]
    have hn : (l.length : ℚ) ≠ 0 := by
      have : l.length ≠ 0 := fun hz => hne (List.length_eq_zero.mp hz)
      exact_mod_cast this
    field_simp

/-- C4 witness: the Shopify key "5003" maps to three copies of "5001";
expanding a row with quantity 2 and revenue "$30" gives three items of
2 units and 10 revenue each. -/
theorem c4_bundle_expansion_witness :
    processBundledRow SHOPIFY_SKU_MAP "5003" 2 (PyVal.vStr "$30") =
      Except.ok ([⟨"5001", 2, 10⟩, ⟨"5001", 2, 10⟩, ⟨"5001", 2, 10⟩],
        true, false) := by
  have h := c4_bundle_expansion SHOPIFY_SKU_MAP "5003" 2 (PyVal.vStr "$30")
    ["5001", "5001", "5001"] 30 (by with_unfolding_all rfl) (by decide)
    (by with_unfolding_all rfl)
  rw [h.1]
  with_unfolding_all rfl

/-- C7 code_bug evaluation: for every input file the embedded TikTok sales
parser raises TypeError at its load step, because it calls
load_csv(path, skiprows=.., sep=..) while load_csv accepts only file_path
and skiprows; the header scan itself behaves as specified (first "SKU ID"
line fixes the skip count and delimiter by comparing separator counts,
with the hardcoded fallback skip count 2). -/
theorem c7_tiktok_loader :
    (∀ lines : List String, parseTiktokSales lines = Except.error PyErr.typeError) ∧
    kwargsAccepted loadCsvParams ["skiprows", "sep"] = false ∧
    tiktokDetectHeader ["SKU ID,Items sold,GMV", "1,2,3"] = (0, ",") ∧
    tiktokDetectHeader ["junk", "x;y", "a;b", "SKU ID;Items sold;GMV;x"] = (3, ";") ∧
    tiktokDetectHeader ["no marker here"] = (2, ",") := by
  refine ⟨?_, by decide, by decide, by decide, by decide⟩
  intro lines
  have hk : kwargsAccepted loadCsvParams ["skiprows", "sep"] = false := by decide
  simp [parseTiktokSales, hk]

/-- C8: for every stock-levels input and every master SKU, the Reserve
channel inventory produced by the Flexport parser equals
max(sum of RS Total Quantity - sum of Ops WIP Quantity, 0) over that
SKU's rows, and is never negative. -/
theorem c8_flexport_reserve (rows : List LevelsRow) (sku : String)
    (h : sku ∈ SKU_ORDER) :
    (flexportReserveFinal rows).lookup sku =
      some (max
        ((((rows.filter (fun r => r.msku == sku)).map
            (fun r => toNumeric0 r.rsQty)).sum) -
          (((rows.filter (fun r => r.msku == sku)).map
            (fun r => toNumeric0 r.wipQty)).sum)) 0) ∧
    ∀ v : ℚ, (flexportReserveFinal rows).lookup sku = some v → 0 ≤ v := by
  refine ⟨flexportReserveFinal_lookup rows sku h, ?_⟩
  intro v hv
  rw [flexportReserveFinal_lookup rows sku h] at hv
  injection hv with hv
  rw [← hv]
  exact le_max_right _ _

/-- C8 witness: a stock-levels file with RS Total Quantity 10 and Ops WIP
Quantity 15 for SKU "4001" yields a clamped reserve inventory of 0. -/
theorem c8_flexport_reserve_witness :
    ("4001" ∈ SKU_ORDER) ∧
    (flexportReserveFinal
      [⟨"4001", PyVal.vInt 0, PyVal.vInt 10, PyVal.vInt 15⟩]).lookup "4001" =
      some 0 := by
  refine ⟨by decide, ?_⟩
  rw [(c8_flexport_reserve
    [⟨"4001", PyVal.vInt 0, PyVal.vInt 10, PyVal.vInt 15⟩] "4001" (by decide)).1]
  with_unfolding_all rfl

/-- C9 counterexample: clean_money raises ValueError on the non-blank,
non-numeric string "abc" instead of normalizing it to zero, refuting
"returns a numeric value for every input without raising". -/
theorem c9_counterexample :
    cleanMoney (PyVal.vStr "abc") = Except.error PyErr.valueError := by
  with_unfolding_all rfl

/-- C9 amended: clean_money returns numeric inputs as floats, strips "$",
"," and surrounding whitespace from strings and parses the result, maps
blank-after-cleaning strings and non-(int/float/str) inputs to zero, and
raises ValueError exactly when the cleaned, non-blank string does not
parse as a number. -/
theorem c9_amended :
    (∀ n : Int, cleanMoney (PyVal.vInt n) = Except.ok (n : ℚ)) ∧
    (∀ q : ℚ, cleanMoney (PyVal.vFloat q) = Except.ok q) ∧
    cleanMoney PyVal.vNone = Except.ok 0 ∧
    (∀ s : String, (pyTrim (removeChar ',' (removeChar '$' s))).isEmpty = true →
      cleanMoney (PyVal.vStr s) = Except.ok 0) ∧
    (∀ (s : String) (q : ℚ),
      (pyTrim (removeChar ',' (removeChar '$' s))).isEmpty = false →
      pyFloatOfString? (pyTrim (removeChar ',' (removeChar '$' s))) = some q →
      cleanMoney (PyVal.vStr s) = Except.ok q) ∧
    (∀ s : String, (pyTrim (removeChar ',' (removeChar '$' s))).isEmpty = false →
      pyFloatOfString? (pyTrim (removeChar ',' (removeChar '$' s))) = none →
      cleanMoney (PyVal.vStr s) = Except.error PyErr.valueError) := by
  refine ⟨fun n => rfl, fun q => rfl, rfl, ?_, ?_, ?_⟩
  · intro s hs
    simp [cleanMoney, hs]
  · intro s q hs hp
    simp [cleanMoney, hs, hp]
  · intro s hs hp
    simp [cleanMoney, hs, hp]

/-- C9 witness: a currency string parses after cleaning, a blank cleans to
zero, and "abc" fails the parse and raises. -/
theorem c9_amended_witness :
    ((pyTrim (removeChar ',' (removeChar '$' "$1,234.56"))).isEmpty = false ∧
      pyFloatOfString? (pyTrim (removeChar ',' (removeChar '$' "$1,234.56"))) =
        some (123456 / 100 : ℚ) ∧
      cleanMoney (PyVal.vStr "$1,234.56") = Except.ok (123456 / 100 : ℚ)) ∧
    ((pyTrim (removeChar ',' (removeChar '$' " $ , "))).isEmpty = true ∧
      cleanMoney (PyVal.vStr " $ , ") = Except.ok 0) ∧
    ((pyTrim (removeChar ',' (removeChar '$' "abc"))).isEmpty = false ∧
      pyFloatOfString? (pyTrim (removeChar ',' (removeChar '$' "abc"))) = none ∧
      cleanMoney (PyVal.vStr "abc") = Except.error PyErr.valueError) := by
  refine ⟨⟨by decide, by with_unfolding_all rfl, ?_⟩,
    ⟨by decide, ?_⟩, ⟨by decide, by with_unfolding_all rfl, ?_⟩⟩
  · exact c9_amended.2.2.2.2.1 "$1,234.56" (123456 / 100 : ℚ) (by decide)
      (by with_unfolding_all rfl)
  · exact c9_amended.2.2.2.1 " $ , " (by decide)
  · exact c9_amended.2.2.2.2.2 "abc" (by decide) (by with_unfolding_all rfl)

/-- C10: in bundle expansion, a key mapped to the empty SKU list yields no
items and is_bundle false with no alert; an unmapped key that is blank or
case-insensitively "nan" after stripping yields no items with no alert;
every other unmapped key yields no items and logs the unmapped-SKU
alert. -/
theorem c10_unmapped_handling :
    (∀ (mapping : List (String × List String)) (key : String) (qty : ℚ)
        (rev : PyVal), mapping.lookup (pyTrim key) = some [] →
      processBundledRow mapping key qty rev = Except.ok ([], false, false)) ∧
    (∀ (mapping : List (String × List String)) (key : String) (qty : ℚ)
        (rev : PyVal), mapping.lookup (pyTrim key) = none →
      (pyTrim key).isEmpty = true ∨ pyLower (pyTrim key) = "nan" →
      processBundledRow mapping key qty rev = Except.ok ([], false, false)) ∧
    (∀ (mapping : List (String × List String)) (key : String) (qty : ℚ)
        (rev : PyVal), mapping.lookup (pyTrim key) = none →
      (pyTrim key).isEmpty = false → pyLower (pyTrim key) ≠ "nan" →
      processBundledRow mapping key qty rev = Except.ok ([], false, true)) := by
  refine ⟨?_, ?_, ?_⟩
  · intro mapping key qty rev hl
    simp [processBundledRow, hl]
  · intro mapping key qty rev hl hbn
    rcases hbn with hb | hn
    · simp [processBundledRow, hl, hb]
    · simp [processBundledRow, hl, hn]
  · intro mapping key qty rev hl hb hn
    have hne : (pyLower (pyTrim key) != "nan") = true := by
      simpa using hn
    simp [processBundledRow, hl, hb, hne]

/-- C10 witness: a mapped-to-empty key, a " nAn " key, and an unmapped key
"ZZZ" against a one-entry mapping. -/
theorem c10_unmapped_handling_witness :
    (([("E", ([] : List String))] : List (String × List String)).lookup
        (pyTrim "E") = some [] ∧
      processBundledRow [("E", [])] "E" 2 (PyVal.vFloat 30) =
        Except.ok ([], false, false)) ∧
    (([("A", ["x"])] : List (String × List String)).lookup (pyTrim " nAn ") = none ∧
      pyLower (pyTrim " nAn ") = "nan" ∧
      processBundledRow [("A", ["x"])] " nAn " 2 (PyVal.vFloat 30) =
        Except.ok ([], false, false)) ∧
    (([("A", ["x"])] : List (String × List String)).lookup (pyTrim "ZZZ") = none ∧
      (pyTrim "ZZZ").isEmpty = false ∧
      processBundledRow [("A", ["x"])] "ZZZ" 2 (PyVal.vFloat 30) =
        Except.ok ([], false, true)) := by
  refine ⟨⟨by decide, ?_⟩, ⟨by decide, by decide, ?_⟩, ⟨by decide, by decide, ?_⟩⟩
  · exact c10_unmapped_handling.1 [("E", [])] "E" 2 (PyVal.vFloat 30) (by decide)
  · exact c10_unmapped_handling.2.1 [("A", ["x"])] " nAn " 2 (PyVal.vFloat 30)
      (by decide) (Or.inr (by decide))
  · exact c10_unmapped_handling.2.2 [("A", ["x"])] "ZZZ" 2 (PyVal.vFloat 30)
      (by decide) (by decide) (by decide)

/-- C5 counterexample: the sales schema validation accepts a record with
negative units and negative revenue, refuting "the schema validation step
rejects any record carrying a negative metric value". -/
theorem c5_counterexample :
    salesRecordValidate (-5) (-121 / 10) = Except.ok (-5, -121 / 10) := by
  with_unfolding_all rfl

theorem pydanticIntField_ok_nonneg (q : ℚ) (z : Int)
    (h : pydanticIntField true q = Except.ok z) : 0 ≤ q := by
  unfold pydanticIntField at h
  by_cases hd : q.den = 1
  · rw [if_pos hd] at h
    by_cases hn : q.num < 0
    · simp [hn] at h
    · push_neg at hn
      exact Rat.num_nonneg.mp hn
  · rw [if_neg hd] at h
    cases h

theorem pydanticIntField_neg_err (q : ℚ) (hq : q < 0) :
    pydanticIntField true q = Except.error PyErr.validationError := by
  unfold pydanticIntField
  by_cases hd : q.den = 1
  · have hn : q.num < 0 := Rat.num_neg.mpr hq
    simp [hd, hn]
  · simp [hd]

theorem pydanticIntField_shape (g : Bool) (q : ℚ) :
    pydanticIntField g q = Except.error PyErr.validationError ∨
      ∃ z, pydanticIntField g q = Except.ok z := by
  unfold pydanticIntField
  by_cases hd : q.den = 1
  · rw [if_pos hd]
    by_cases hn : (g && decide (q.num < 0)) = true
    · rw [if_pos hn]
      exact Or.inl rfl
    · rw [if_neg hn]
      exact Or.inr ⟨q.num, rfl⟩
  · rw [if_neg hd]
    exact Or.inl rfl

/-- C5 amended: the inventory schema (InventoryItem) constrains units_sold,
inventory and inbound with ge=0 — validated metrics are non-negative and a
negative metric is rejected — while the sales schema (SalesRecord)
declares no bound on units or revenue, so sales validation accepts every
record, negative metrics included. -/
theorem c5_amended :
    (∀ (u i b : ℚ) (uo io bo : Int),
      inventoryItemValidate u i b = Except.ok (uo, io, bo) →
      0 ≤ u ∧ 0 ≤ i ∧ 0 ≤ b) ∧
    (∀ u i b : ℚ, u < 0 ∨ i < 0 ∨ b < 0 →
      inventoryItemValidate u i b = Except.error PyErr.validationError) ∧
    (∀ (u : Int) (r : ℚ), salesRecordValidate u r = Except.ok (u, r)) := by
  have hg1 : fieldGe0 InventoryItemFields "units_sold" = true := by rfl
  have hg2 : fieldGe0 InventoryItemFields "inventory" = true := by rfl
  have hg3 : fieldGe0 InventoryItemFields "inbound" = true := by rfl
  refine ⟨?_, ?_, fun u r => salesRecordValidate_ok u r⟩
  · intro u i b uo io bo h
    unfold inventoryItemValidate at h
    rw [hg1, hg2, hg3] at h
    cases h1 : pydanticIntField true u with
    | error e => rw [h1] at h; cases h
    | ok z1 =>
        rw [h1] at h
        cases h2 : pydanticIntField true i with
        | error e => rw [h2] at h; cases h
        | ok z2 =>
            rw [h2] at h
            cases h3 : pydanticIntField true b with
            | error e => rw [h3] at h; cases h
            | ok z3 =>
                exact ⟨pydanticIntField_ok_nonneg _ _ h1,
                  pydanticIntField_ok_nonneg _ _ h2,
                  pydanticIntField_ok_nonneg _ _ h3⟩
  · intro u i b hneg
    unfold inventoryItemValidate
    rw [hg1, hg2, hg3]
    rcases hneg with hu | hi | hb
    · rw [pydanticIntField_neg_err u hu]
    · rcases pydanticIntField_shape true u with h1 | ⟨z1, h1⟩
      · rw [h1]
      · rw [h1, pydanticIntField_neg_err i hi]
    · rcases pydanticIntField_shape true u with h1 | ⟨z1, h1⟩
      · rw [h1]
      · rw [h1]
        rcases pydanticIntField_shape true i with h2 | ⟨z2, h2⟩
        · rw [h2]
        · rw [h2, pydanticIntField_neg_err b hb]

/-- C5 witness: integral non-negative metrics validate and imply
non-negativity, a negative inventory metric is rejected, and a sales
record with negative units and revenue still validates. -/
theorem c5_amended_witness :
    (inventoryItemValidate 5 3 2 = Except.ok (5, 3, 2) ∧
      (0 : ℚ) ≤ 5 ∧ (0 : ℚ) ≤ 3 ∧ (0 : ℚ) ≤ 2) ∧
    inventoryItemValidate 5 (-3) 2 = Except.error PyErr.validationError ∧
    salesRecordValidate (-7) (-42) = Except.ok (-7, -42) := by
  refine ⟨⟨?_, ?_⟩, ?_, c5_amended.2.2 (-7) (-42)⟩
  · with_unfolding_all rfl
  · exact c5_amended.1 5 3 2 5 3 2 (by with_unfolding_all rfl)
  · exact c5_amended.2.1 5 (-3) 2 (Or.inr (Or.inl (by norm_num)))

/-- C6: find_latest_report returns the file named pfx + today's ISO date +
".csv" paired with today whenever that name is in the directory; otherwise
it returns none exactly when no file matches the anchored pattern with a
valid date, and any returned pair is a matching candidate whose date is
maximal among all candidates. -/
theorem c6_find_latest (files : List String) (pfx : String) (today : Date) :
    (files.contains (pfx ++ today.iso ++ ".csv") = true →
      find_latest_report files pfx today =
        some (pfx ++ today.iso ++ ".csv", today)) ∧
    (files.contains (pfx ++ today.iso ++ ".csv") = false →
      ((find_latest_report files pfx today = none ↔
          reportCandidates files pfx = []) ∧
        (∀ r, find_latest_report files pfx today = some r →
          r ∈ reportCandidates files pfx ∧
          ∀ x ∈ reportCandidates files pfx, dateLeB x.2 r.2 = true))) := by
  constructor
  · intro h
    simp only [find_latest_report]
    rw [if_pos h]
  · intro h
    have hne : find_latest_report files pfx today =
        pickFirstMax (reportCandidates files pfx) := by
      simp only [find_latest_report]
      rw [if_neg (show ¬(files.contains (pfx ++ today.iso ++ ".csv") = true) from by
        rw [h]; simp)]
    rw [hne]
    exact ⟨pickFirstMax_eq_none_iff _, fun r hr => pickFirstMax_spec _ r hr⟩

/-- C6 witness: with candidate files dated 2025-01-01 and 2025-01-03 and
today 2025-01-02, the resolver returns the 2025-01-03 file (latest, not
nearest); and when today's exact file exists it is returned even though a
later-dated file is present. -/
theorem c6_find_latest_witness :
    (["AWD_report_2025-01-01.csv", "AWD_report_2025-01-03.csv"].contains
        ("AWD_report_" ++ (⟨2025, 1, 2⟩ : Date).iso ++ ".csv") = false ∧
      find_latest_report ["AWD_report_2025-01-01.csv", "AWD_report_2025-01-03.csv"]
        "AWD_report_" ⟨2025, 1, 2⟩ =
        some ("AWD_report_2025-01-03.csv", ⟨2025, 1, 3⟩) ∧
      ("AWD_report_2025-01-03.csv", (⟨2025, 1, 3⟩ : Date)) ∈
        reportCandidates ["AWD_report_2025-01-01.csv", "AWD_report_2025-01-03.csv"]
          "AWD_report_" ∧
      ∀ x ∈ reportCandidates
          ["AWD_report_2025-01-01.csv", "AWD_report_2025-01-03.csv"] "AWD_report_",
        dateLeB x.2 (⟨2025, 1, 3⟩ : Date) = true) ∧
    (["AWD_report_2025-01-02.csv", "AWD_report_2025-01-03.csv"].contains
        ("AWD_report_" ++ (⟨2025, 1, 2⟩ : Date).iso ++ ".csv") = true ∧
      find_latest_report ["AWD_report_2025-01-02.csv", "AWD_report_2025-01-03.csv"]
        "AWD_report_" ⟨2025, 1, 2⟩ =
        some ("AWD_report_" ++ (⟨2025, 1, 2⟩ : Date).iso ++ ".csv", ⟨2025, 1, 2⟩)) := by
  have hres : find_latest_report
      ["AWD_report_2025-01-01.csv", "AWD_report_2025-01-03.csv"]
      "AWD_report_" ⟨2025, 1, 2⟩ =
      some ("AWD_report_2025-01-03.csv", ⟨2025, 1, 3⟩) := by decide
  have hmax := (c6_find_latest
    ["AWD_report_2025-01-01.csv", "AWD_report_2025-01-03.csv"]
    "AWD_report_" ⟨2025, 1, 2⟩).2 (by decide)
  refine ⟨⟨by decide, hres, (hmax.2 _ hres).1, (hmax.2 _ hres).2⟩,
    ⟨by decide, ?_⟩⟩
  exact (c6_find_latest
    ["AWD_report_2025-01-02.csv", "AWD_report_2025-01-03.csv"]
    "AWD_report_" ⟨2025, 1, 2⟩).1 (by decide)

/-- C1 counterexample: a concrete inventory run reaches no validated
output at all — the transform raises KeyError("Units Sold") because the
frame's metric column was renamed to "Units" while the schema alias
selected is "Units Sold" — and a concrete sales run whose only data
channel is "Walmart" still produces 33 records for the channel "Target",
a (channel, SKU) pair outside the claimed set. -/
theorem c1_counterexample :
    invTransform [⟨"FBA", "1001", some ⟨2025, 1, 2⟩, 5, 3, 2⟩]
      ⟨2025, 1, 2⟩ ⟨2025, 1, 2⟩ = Except.error (PyErr.keyError "Units Sold") ∧
    ((salesTransform [⟨"Walmart", "1001", ⟨2025, 1, 2⟩, 5, 50⟩]
        [⟨"Walmart", ⟨2025, 1, 2⟩, 2, 20⟩] ⟨2025, 1, 3⟩).map
      (fun out => (out.filter (fun r => r.channel == "Target")).length) =
        Except.ok 33) ∧
    ([⟨"Walmart", "1001", ⟨2025, 1, 2⟩, 5, 50⟩] : List SalesRow).all
      (fun r => r.channel == "Walmart") = true := by
  refine ⟨by with_unfolding_all rfl, by with_unfolding_all rfl, by decide⟩

/-- C1 amended: (inventory) the zero-filled merged table contains exactly
one row per (channel that produced output, master SKU) pair and none
outside, but the transform then always raises KeyError("Units Sold") at
the schema-alias column selection, so no validated inventory output is
produced; (sales, with the spec-modelled SALES_CHANNEL_ORDER) the
validated output contains exactly one record per (configured sales
channel, master SKU) pair plus exactly one "Bundles" record per
configured channel, regardless of which channels produced output. -/
theorem c1_amended :
    (∀ (combined : List InvRow) (today : Date),
      List.Pairwise (fun a b => (a.channel, a.sku) ≠ (b.channel, b.sku)) combined →
      ∀ c s : String,
        (invMerged combined today).countP (fun r => r.channel == c && r.sku == s) =
          if c ∈ combined.map (fun r => r.channel) ∧ s ∈ SKU_ORDER then 1 else 0) ∧
    (∀ (combined : List InvRow) (today sysDate : Date),
      invTransform combined today sysDate =
        Except.error (PyErr.keyError "Units Sold")) ∧
    (∀ (df : List SalesRow) (bundles : List BundleRow) (sysDate : Date),
      List.Pairwise (fun a b => (a.channel, a.sku) ≠ (b.channel, b.sku)) df →
      List.Pairwise (fun a b => a.channel ≠ b.channel) bundles →
      ∀ c s : String,
        (salesTransform df bundles sysDate).map
          (fun out => out.countP (fun r => r.channel == c && r.sku == s)) =
          Except.ok (if c ∈ SALES_CHANNEL_ORDER ∧ (s ∈ SKU_ORDER ∨ s = "Bundles")
            then 1 else 0)) := by
  refine ⟨fun combined today h c s => invMerged_countP combined today h c s,
    ?_, fun df bundles sysDate hdf hb c s =>
      salesTransform_countP df bundles sysDate hdf hb c s⟩
  intro combined today sysDate
  have hm : invFinalColumns.filter (fun c => !(invRenamedColumns.contains c)) =
      ["Units Sold"] := by decide
  have hj : joinComma ["Units Sold"] = "Units Sold" := by decide
  simp only [invTransform]
  rw [hm, hj]
  rfl

/-- C1 witness: the amended statement applied at the one-row inventory run
and the Walmart-only sales run. -/
theorem c1_amended_witness :
    ((invMerged [⟨"FBA", "1001", some ⟨2025, 1, 2⟩, 5, 3, 2⟩] ⟨2025, 1, 2⟩).countP
        (fun r => r.channel == "FBA" && r.sku == "1001") =
      if "FBA" ∈ ([⟨"FBA", "1001", some ⟨2025, 1, 2⟩, 5, 3, 2⟩] : List InvRow).map
          (fun r => r.channel) ∧ "1001" ∈ SKU_ORDER then 1 else 0) ∧
    invTransform [⟨"FBA", "1001", some ⟨2025, 1, 2⟩, 5, 3, 2⟩]
      ⟨2025, 1, 2⟩ ⟨2025, 1, 2⟩ = Except.error (PyErr.keyError "Units Sold") ∧
    ((salesTransform [⟨"Walmart", "1001", ⟨2025, 1, 2⟩, 5, 50⟩]
        [⟨"Walmart", ⟨2025, 1, 2⟩, 2, 20⟩] ⟨2025, 1, 3⟩).map
      (fun out => out.countP (fun r => r.channel == "Walmart" && r.sku == "1001")) =
        Except.ok (if "Walmart" ∈ SALES_CHANNEL_ORDER ∧
          ("1001" ∈ SKU_ORDER ∨ "1001" = "Bundles") then 1 else 0)) := by
  refine ⟨c1_amended.1 _ _ (by simp) "FBA" "1001",
    c1_amended.2.1 _ _ _,
    c1_amended.2.2 _ _ _ (by simp) (by simp) "Walmart" "1001"⟩

theorem invExtractAux_awd (find : String → Option Date)
    (parse : String → Option (List InvParsedRow))
    (hown : ∀ sname rows, parse sname = some rows →
      ∀ r ∈ rows, r.channel ∈ sourceChannels sname)
    (hnd : find AWD_FILENAME_PFX = none ∨ parse "AWD" = none ∨
      parse "AWD" = some []) :
    ∀ (srcs : List InvCfg) (summ : List (String × Option Date)),
    (∀ cfg ∈ srcs, cfg.sname ≠ "AWD" → "AWD" ∉ sourceChannels cfg.sname) →
    (∀ cfg ∈ srcs, cfg.sname = "AWD" → cfg.files = [("primary", AWD_FILENAME_PFX)]) →
    summaryGet summ "AWD" = none →
    (∀ r ∈ (invExtractAux find parse srcs summ).1, r.channel ≠ "AWD") ∧
    summaryGet (invExtractAux find parse srcs summ).2 "AWD" = none := by
  intro srcs
  induction srcs with
  | nil =>
      intro summ _ _ hs
      refine ⟨fun r hr => ?_, hs⟩
      simp only [invExtractAux] at hr
      cases hr
  | cons cfg rest ih =>
      intro summ hch hfiles hs
      obtain ⟨n, fs⟩ := cfg
      by_cases hname : n = "AWD"
      · subst hname
        have hfs : fs = [("primary", AWD_FILENAME_PFX)] :=
          hfiles ⟨"AWD", fs⟩ (by simp) rfl
        subst hfs
        have hnil := processSource_awd_nil find parse summ hnd
        have hsum := processSource_awd_summary find parse summ hnd hs
        have hrest := ih
          (processSource find parse ⟨"AWD", [("primary", AWD_FILENAME_PFX)]⟩ summ).2
          (fun c hc => hch c (by simp [hc]))
          (fun c hc => hfiles c (by simp [hc]))
          hsum
        refine ⟨fun r hr => ?_, hrest.2⟩
        simp only [invExtractAux] at hr ⊢
        rw [List.mem_append, hnil] at hr
        rcases hr with hr | hr
        · cases hr
        · exact hrest.1 r hr
      · have hA : "AWD" ∉ sourceChannels n := hch ⟨n, fs⟩ (by simp) hname
        have hsum := processSource_summary_preserve find parse ⟨n, fs⟩ summ hown hA hname
        have hrest := ih (processSource find parse ⟨n, fs⟩ summ).2
          (fun c hc => hch c (by simp [hc]))
          (fun c hc => hfiles c (by simp [hc]))
          (hsum.trans hs)
        refine ⟨fun r hr => ?_, hrest.2⟩
        simp only [invExtractAux] at hr ⊢
        rw [List.mem_append] at hr
        rcases hr with hr | hr
        · have := processSource_channels find parse ⟨n, fs⟩ summ hown r hr
          exact fun heq => hA (heq ▸ this)
        · exact hrest.1 r hr

/-- C2 counterexample: a concrete sales run whose only data channel is
"Shopify" still yields 33 zero-valued records for "TikTok Shop" in the
validated output, refuting both "a channel with no data contributes zero
records" and "the zero-fill template is built only over channels that did
produce data". -/
theorem c2_counterexample :
    ([⟨"Shopify", "5001", ⟨2025, 1, 2⟩, 4, 40⟩] : List SalesRow).all
      (fun r => !(r.channel == "TikTok Shop")) = true ∧
    ((salesTransform [⟨"Shopify", "5001", ⟨2025, 1, 2⟩, 4, 40⟩]
        [⟨"Shopify", ⟨2025, 1, 2⟩, 1, 10⟩] ⟨2025, 1, 3⟩).map
      (fun out => (out.filter (fun r => r.channel == "TikTok Shop")).length) =
        Except.ok 33) ∧
    ((salesTransform [⟨"Shopify", "5001", ⟨2025, 1, 2⟩, 4, 40⟩]
        [⟨"Shopify", ⟨2025, 1, 2⟩, 1, 10⟩] ⟨2025, 1, 3⟩).map
      (fun out => out.all (fun r => !(r.channel == "TikTok Shop") ||
        (r.units == 0 && decide (r.revenue = 0)))) = Except.ok true) := by
  refine ⟨by decide, by with_unfolding_all rfl, by with_unfolding_all rfl⟩

/-- C2 amended: (inventory) a source whose required files are missing — or
whose parser produced no data — contributes no rows to the extracted
data, the inventory zero-fill template covers no (channel, SKU) pair of
that source's channels, and the status summary renders the channel as
"No data"; (sales, with the spec-modelled SALES_CHANNEL_ORDER) the
zero-fill template covers the full configured channel list, so a
configured channel that produced no rows and no bundle statistics still
receives its full complement of 33 zero-valued records in the validated
output.  Stated for the AWD inventory source and the "TikTok Shop" sales
channel. -/
theorem c2_amended :
    (∀ (find : String → Option Date) (parse : String → Option (List InvParsedRow))
        (today : Date),
      (∀ sname rows, parse sname = some rows →
        ∀ r ∈ rows, r.channel ∈ sourceChannels sname) →
      (find AWD_FILENAME_PFX = none ∨ parse "AWD" = none ∨
        parse "AWD" = some []) →
      (∀ r ∈ (inventoryExtract find parse).1, r.channel ≠ "AWD") ∧
      (∀ t ∈ invTemplate (inventoryExtract find parse).1 today, t.1 ≠ "AWD") ∧
      statusLine (summaryGet (inventoryExtract find parse).2 "AWD") = "No data") ∧
    (∀ (df : List SalesRow) (bundles : List BundleRow) (sysDate : Date),
      List.Pairwise (fun a b => (a.channel, a.sku) ≠ (b.channel, b.sku)) df →
      List.Pairwise (fun a b => a.channel ≠ b.channel) bundles →
      (∀ r ∈ df, r.channel ≠ "TikTok Shop") →
      (∀ b ∈ bundles, b.channel ≠ "TikTok Shop") →
      ((salesTransform df bundles sysDate).map
        (fun out => (out.filter (fun r => r.channel == "TikTok Shop")).length) =
          Except.ok 33) ∧
      ((salesTransform df bundles sysDate).map
        (fun out => out.all (fun r => !(r.channel == "TikTok Shop") ||
          (r.units == 0 && decide (r.revenue = 0)))) = Except.ok true)) := by
  constructor
  · intro find parse today hown hnd
    have hmain := invExtractAux_awd find parse hown hnd INV_SOURCES initInvSummary
      (by decide) (by decide) (by decide)
    refine ⟨hmain.1, ?_, ?_⟩
    · intro t ht
      simp only [invTemplate, List.mem_flatMap] at ht
      obtain ⟨ch, hch, hmem⟩ := ht
      rw [mem_pdUnique] at hch
      simp only [List.mem_map] at hch
      obtain ⟨r, hr, rfl⟩ := hch
      simp only [List.mem_map] at hmem
      obtain ⟨sk, _, rfl⟩ := hmem
      exact hmain.1 r hr
    · rw [show (inventoryExtract find parse).2 =
        (invExtractAux find parse INV_SOURCES initInvSummary).2 from rfl,
        hmain.2]
      rfl
  · intro df bundles sysDate hdf hb hno hnb
    exact ⟨salesTransform_channel_total df bundles sysDate "TikTok Shop" hdf hb
        (by decide),
      salesTransform_absent_zero df bundles sysDate "TikTok Shop" hno hnb⟩

/-- C2 witness: the amended statement applied to a run where every report
file is missing, and to the Shopify-only sales run. -/
theorem c2_amended_witness :
    ((∀ r ∈ (inventoryExtract (fun _ => none) (fun _ => none)).1,
        r.channel ≠ "AWD") ∧
      (∀ t ∈ invTemplate (inventoryExtract (fun _ => none) (fun _ => none)).1
          ⟨2025, 1, 2⟩, t.1 ≠ "AWD") ∧
      statusLine (summaryGet (inventoryExtract (fun _ => none)
        (fun _ => none)).2 "AWD") = "No data") ∧
    ((salesTransform [⟨"Shopify", "5001", ⟨2025, 1, 2⟩, 4, 40⟩]
        [⟨"Shopify", ⟨2025, 1, 2⟩, 1, 10⟩] ⟨2025, 1, 3⟩).map
      (fun out => (out.filter (fun r => r.channel == "TikTok Shop")).length) =
        Except.ok 33) ∧
    ((salesTransform [⟨"Shopify", "5001", ⟨2025, 1, 2⟩, 4, 40⟩]
        [⟨"Shopify", ⟨2025, 1, 2⟩, 1, 10⟩] ⟨2025, 1, 3⟩).map
      (fun out => out.all (fun r => !(r.channel == "TikTok Shop") ||
        (r.units == 0 && decide (r.revenue = 0)))) = Except.ok true) := by
  have hinv := c2_amended.1 (fun _ => none) (fun _ => none) ⟨2025, 1, 2⟩
    (fun sname rows h => by cases h) (Or.inl rfl)
  have hsales := c2_amended.2 [⟨"Shopify", "5001", ⟨2025, 1, 2⟩, 4, 40⟩]
    [⟨"Shopify", ⟨2025, 1, 2⟩, 1, 10⟩] ⟨2025, 1, 3⟩
    (by simp) (by simp)
    (by intro r hr; simp only [List.mem_singleton] at hr; subst hr; decide)
    (by intro b hb; simp only [List.mem_singleton] at hb; subst hb; decide)
  exact ⟨hinv, hsales.1, hsales.2⟩
